import Mathlib

/-
Verification development for the baseball game-data integration scripts
(web_app/lib/baseball_integration.py, baseball_integration_real.py,
baseball_integration_fixed.py, baseball_json_integration.py,
baseball_wrapper.py, baseball_lib_integration.py).

Each definition is a shallow embedding of one Python function from the
repository.  External I/O (HTTP fetches, file reads, datetime parsing)
is modelled by explicit environment records whose Option-valued fields
stand for "fetch succeeded with this payload" versus "fetch raised or
returned a non-200 status" - matching the scripts, which wrap every such
call in try/except and convert failures into None or empty results.
Strings are Lean strings, except inside the identifier codec, which
works on lists of characters so that the split-on-hyphen behaviour of
game_id.split('-') can be reasoned about directly.
-/

namespace Baseball

/-! ## Game identifier codec

Python: parts = game_id.split('-') rejecting len(parts) < 6, then
date_str = parts[0]-parts[1]-parts[2], away = parts[3], home = parts[4],
game_number = int(parts[5]); game ids are re-assembled as the f-string
date_str-away-home-game_number (baseball_integration_fixed.py line 106).
-/

/-- Core of Python's split(sep) for a one-character separator: the
segment before the first separator together with the remaining
segments. -/
def splitCharCore (sep : Char) : List Char → List Char × List (List Char)
  | [] => ([], [])
  | c :: cs =>
    let r := splitCharCore sep cs
    if c = sep then ([], r.1 :: r.2) else (c :: r.1, r.2)

/-- Python str.split(sep): always returns at least one segment. -/
def splitChar (sep : Char) (s : List Char) : List (List Char) :=
  (splitCharCore sep s).1 :: (splitCharCore sep s).2

/-- Python str.split('-') as used on game identifiers. -/
def splitDash (s : List Char) : List (List Char) := splitChar '-' s

/-- Inverse of splitDash: '-'.join(parts). -/
def joinDash : List (List Char) → List Char
  | [] => []
  | [p] => p
  | p :: ps => p ++ '-' :: joinDash ps

/-- Decimal digit character for d % 10. -/
def digitChar (d : Nat) : Char := Char.ofNat (48 + d % 10)

/-- Fuel-driven accumulator loop producing the decimal digits of n in
front of acc.  The fuel only needs to exceed the number of digits. -/
def natToCharsAux : Nat → Nat → List Char → List Char
  | 0, _, acc => acc
  | fuel + 1, n, acc =>
    if n < 10 then digitChar n :: acc
    else natToCharsAux fuel (n / 10) (digitChar (n % 10) :: acc)

/-- Decimal rendering of a natural number, as produced by Python
f-string interpolation of a non-negative int. -/
def natToChars (n : Nat) : List Char := natToCharsAux (n + 1) n []

/-- Value of a decimal digit character, none for non-digits. -/
def digitVal (c : Char) : Option Nat :=
  if 48 ≤ c.toNat ∧ c.toNat ≤ 57 then some (c.toNat - 48) else none

/-- Accumulating decimal parser. -/
def natParseAux : List Char → Nat → Option Nat
  | [], acc => some acc
  | c :: cs, acc =>
    match digitVal c with
    | some d => natParseAux cs (acc * 10 + d)
    | none => none

/-- Python int() restricted to plain digit strings (the only shape the
sixth field of a canonical game id can carry; int() additionally
tolerates surrounding whitespace, a sign and underscores, none of which
occur in canonical identifiers). -/
def natParse : List Char → Option Nat
  | [] => none
  | c :: cs => natParseAux (c :: cs) 0

/-- Parsed composite game identifier, as extracted by the scripts: the
date is kept as the re-joined string of the first three segments. -/
structure GameId where
  dateStr : String
  away : String
  home : String
  gameNumber : Nat
deriving DecidableEq, Repr

/-- Python id parsing shared by every get_detailed_game_data variant:
split on '-', fail when there are fewer than six parts or the sixth part
is not an integer, otherwise keep segments 0-5 (extra segments are
silently ignored by the scripts). -/
def parseGameId (s : String) : Option GameId :=
  let parts := splitDash s.data
  if parts.length < 6 then none
  else
    match natParse (parts.getD 5 []) with
    | none => none
    | some n =>
        some { dateStr := ⟨parts.getD 0 [] ++ '-' :: parts.getD 1 [] ++ '-' :: parts.getD 2 []⟩
             , away := ⟨parts.getD 3 []⟩
             , home := ⟨parts.getD 4 []⟩
             , gameNumber := n }

/-- Canonical rendering of a game identifier,
f"(date_str)-(away_code)-(home_code)-(game_number)". -/
def formatGameId (g : GameId) : String :=
  g.dateStr ++ "-" ++ g.away ++ "-" ++ g.home ++ "-" ++ ⟨natToChars g.gameNumber⟩

/-- A structurally valid identifier: the date holds exactly three
hyphen-separated components and the team codes are hyphen-free. -/
def ValidGameId (g : GameId) : Prop :=
  (splitDash g.dateStr.data).length = 3 ∧ ('-' ∉ g.away.data) ∧ ('-' ∉ g.home.data)

instance (g : GameId) : Decidable (ValidGameId g) := by
  unfold ValidGameId; infer_instance

/-! ## Shared helpers: Python dict.get over lookup tables, name joining,
numeric rendering -/

/-- Python dict.get(key, default) over a literal string table. -/
def tableGet (t : List (String × String)) (k d : String) : String :=
  match t.find? (fun p => p.1 == k) with
  | some p => p.2
  | none => d

/-- Python str.strip(): drop leading and trailing whitespace. -/
def pyStrip (s : String) : String :=
  ⟨((s.data.dropWhile (·.isWhitespace)).reverse.dropWhile (·.isWhitespace)).reverse⟩

/-- Python f"(first_name) (last_name)".strip() where the two fields are
read with .get(..., ''). -/
def pyJoinName (first last : Option String) : String :=
  pyStrip (first.getD "" ++ " " ++ last.getD "")

/-- Python str.upper() on the ASCII team abbreviations the scripts
compare. -/
def pyUpper (s : String) : String := ⟨s.data.map Char.toUpper⟩

/-- Round half to even of the fraction num/den (den positive), the
rounding used by Python's fixed-point float formatting, computed on
integers so it evaluates by kernel reduction. -/
def roundHalfEven (num den : ℤ) : ℤ :=
  let f := Int.fdiv num den
  let rem2 := 2 * (num - f * den)
  if rem2 < den then f
  else if den < rem2 then f + 1
  else if f % 2 = 0 then f else f + 1

/-- Exactly three decimal-digit characters of m (mod 1000), zero padded. -/
def frac3 (m : Nat) : String :=
  ⟨[digitChar (m / 100), digitChar (m / 10), digitChar m]⟩

/-- Exactly two decimal-digit characters of m (mod 100), zero padded. -/
def frac2 (m : Nat) : String :=
  ⟨[digitChar (m / 10), digitChar m]⟩

/-- Python f"(x):.3f" on a numeric value, modelled on rationals that are
exactly representable (the JSON decimals the scripts actually read). -/
def pyFixed3 (q : ℚ) : String :=
  let n := roundHalfEven (q.num * 1000) (q.den : ℤ)
  if n < 0 then "-" ++ ⟨natToChars (n.natAbs / 1000)⟩ ++ "." ++ frac3 (n.natAbs % 1000)
  else ⟨natToChars (n.toNat / 1000)⟩ ++ "." ++ frac3 (n.toNat % 1000)

/-- Python f"(x):.2f" on a numeric value. -/
def pyFixed2 (q : ℚ) : String :=
  let n := roundHalfEven (q.num * 100) (q.den : ℤ)
  if n < 0 then "-" ++ ⟨natToChars (n.natAbs / 100)⟩ ++ "." ++ frac2 (n.natAbs % 100)
  else ⟨natToChars (n.toNat / 100)⟩ ++ "." ++ frac2 (n.toNat % 100)

/-- Fractional decimal digits of the fraction num/den (num < den),
long-division style, up to the given fuel, stopping at zero. -/
def fracDigits (den : ℕ) : ℕ → ℕ → List Char
  | _, 0 => []
  | num, fuel + 1 =>
    if num = 0 then []
    else digitChar (num * 10 / den) :: fracDigits den (num * 10 % den) fuel

/-- Python str()/f"(x)" on a float, modelled for values whose shortest
double representation is their own terminating decimal form (true of
every decimal literal the scripts read from JSON, e.g. str(0.0) = "0.0"
and str(3.5) = "3.5").  Computed on the numerator/denominator pair so
it evaluates by kernel reduction. -/
def pyFloatStr (q : ℚ) : String :=
  let sign := if q < 0 then "-" else ""
  let n := q.num.natAbs
  let d := q.den
  let ds := fracDigits d (n % d) 17
  sign ++ ⟨natToChars (n / d)⟩ ++ "." ++ (if ds.isEmpty then "0" else ⟨ds⟩)

/-! ## Static team tables (identical literals in baseball_integration.py,
baseball_integration_fixed.py and baseball_integration_real.py; the
duplicate NYM entry of baseball_integration.py carries the same value
and is therefore dropped by the Python dict literal itself) -/

def team_names : List (String × String) :=
  [("TB", "Tampa Bay Rays"), ("CHC", "Chicago Cubs"), ("NYM", "New York Mets"),
   ("LAD", "Los Angeles Dodgers"), ("BOS", "Boston Red Sox"), ("ATL", "Atlanta Braves"),
   ("CLE", "Cleveland Guardians"), ("DET", "Detroit Tigers"), ("SEA", "Seattle Mariners"),
   ("MIN", "Minnesota Twins"), ("ARI", "Arizona Diamondbacks"), ("COL", "Colorado Rockies"),
   ("SD", "San Diego Padres"), ("LAA", "Los Angeles Angels"), ("OAK", "Oakland Athletics"),
   ("TEX", "Texas Rangers"), ("HOU", "Houston Astros"), ("KC", "Kansas City Royals"),
   ("STL", "St. Louis Cardinals"), ("MIL", "Milwaukee Brewers"), ("CIN", "Cincinnati Reds"),
   ("PIT", "Pittsburgh Pirates"), ("CHW", "Chicago White Sox"), ("BAL", "Baltimore Orioles"),
   ("WSH", "Washington Nationals"), ("PHI", "Philadelphia Phillies"), ("MIA", "Miami Marlins"),
   ("NYY", "New York Yankees"), ("TOR", "Toronto Blue Jays"), ("SF", "San Francisco Giants")]

def venue_mapping : List (String × String) :=
  [("CHC", "Wrigley Field"), ("TB", "Tropicana Field"), ("NYM", "Citi Field"),
   ("LAD", "Dodger Stadium"), ("BOS", "Fenway Park"), ("ATL", "Truist Park"),
   ("CLE", "Progressive Field"), ("DET", "Comerica Park"), ("SEA", "T-Mobile Park"),
   ("MIN", "Target Field"), ("ARI", "Chase Field"), ("COL", "Coors Field"),
   ("SD", "Petco Park"), ("LAA", "Angel Stadium"), ("OAK", "Oakland Coliseum"),
   ("TEX", "Globe Life Field"), ("HOU", "Minute Maid Park"), ("KC", "Kauffman Stadium"),
   ("STL", "Busch Stadium"), ("MIL", "American Family Field"),
   ("CIN", "Great American Ball Park"), ("PIT", "PNC Park"),
   ("CHW", "Guaranteed Rate Field"), ("BAL", "Oriole Park at Camden Yards"),
   ("WSH", "Nationals Park"), ("PHI", "Citizens Bank Park"), ("MIA", "loanDepot park"),
   ("NYY", "Yankee Stadium"), ("TOR", "Rogers Centre"), ("SF", "Oracle Park")]

/-! ## Raw source records (JSON shapes produced by the scorecard library
and the remote statistics API).  Option-valued fields stand for keys
that may be missing from the source mapping. -/

/-- A player reference inside an appearance (batter, pitcher) or a
runner list entry; only batter/pitcher references carry a number. -/
structure Runner where
  first_name : Option String := none
  last_name : Option String := none
  number : Option String := none
deriving DecidableEq, Repr

/-- A pitch event inside an appearance's event_list. -/
structure RawPitchEvent where
  pitch_type : Option String := none
  pitch_description : Option String := none
  pitch_speed : Option ℚ := none
  pitch_position : Option (ℚ × ℚ) := none
  pitch_datetime : Option String := none
deriving DecidableEq, Repr

/-- A raw plate appearance from the scorecard library JSON. -/
structure RawAppearance where
  batter : Option Runner := none
  pitcher : Option Runner := none
  event_list : Option (List RawPitchEvent) := none
  scoring_runners_list : Option (List Runner) := none
  runners_batted_in_list : Option (List Runner) := none
  out_runners_list : Option (List Runner) := none
  plate_appearance_description : Option String := none
  plate_appearance_summary : Option String := none
  scorecard_summary : Option String := none
  got_on_base : Option Bool := none
  runs_scored : Option ℤ := none
  inning_outs : Option ℤ := none
  hit_location : Option String := none
  error_str : Option String := none
  start_datetime : Option String := none
  end_datetime : Option String := none
  /-- Models the substring test `"top_half" in str(appearance)` used by
  baseball_wrapper.py to guess the half from the dict's repr. -/
  mentions_top_half : Bool := false
deriving DecidableEq, Repr

/-- A raw inning record from the scorecard library JSON. -/
structure RawInning where
  inning : Option ℤ := none
  top_half_appearance_list : Option (List RawAppearance) := none
  bottom_half_appearance_list : Option (List RawAppearance) := none
  top_half_inning_stats : Option (List ℤ) := none
  bottom_half_inning_stats : Option (List ℤ) := none
deriving DecidableEq, Repr

/-- First element of a box-score association pair: player metadata. -/
structure PlayerInfo where
  first_name : Option String := none
  last_name : Option String := none
  number : Option String := none
  obp : Option ℚ := none
  era : Option ℚ := none
deriving DecidableEq, Repr

/-- Second element of a box-score association pair: the stat mapping. -/
structure StatMap where
  AB : Option ℤ := none
  H : Option ℤ := none
  R : Option ℤ := none
  RBI : Option ℤ := none
  IP : Option ℚ := none
  ER : Option ℤ := none
  BB : Option ℤ := none
  SO : Option ℤ := none
deriving DecidableEq, Repr

/-- One entry of a box-score dict: the scripts guard each entry with
`len(entry) >= 2 and isinstance(entry[0], dict)` and skip entries
failing the guard; none models such a malformed entry. -/
abbrev BoxEntry : Type := Option (PlayerInfo × StatMap)

/-- Raw game document from the scorecard library (game.json() or the
world_series_game7.json file). -/
structure RawLibGame where
  away_team_name : Option String := none
  home_team_name : Option String := none
  venue : Option String := none
  inning_list : Option (List RawInning) := none
  away_batter_box : Option (List BoxEntry) := none
  home_batter_box : Option (List BoxEntry) := none
  away_pitcher_box : Option (List BoxEntry) := none
  home_pitcher_box : Option (List BoxEntry) := none
deriving DecidableEq, Repr

/-! ## Normalized output records -/

structure TeamRef where
  name : String
  abbreviation : String
deriving DecidableEq, Repr

structure PitchOut where
  type : String
  description : String
  result : String
  speed : Option ℚ := none
  location : Option (ℚ × ℚ) := none
  datetime : Option String := none
deriving DecidableEq, Repr

/-- A normalized plate appearance (the common fields every extractor
emits; the json-integration extractor adds the runner name lists). -/
structure PAOut where
  batter : String
  pitcher : String
  description : String
  summary : String
  got_on_base : Bool
  runs_scored : ℤ
  rbis : ℤ
  outs : ℤ
  half : String
  events : List PitchOut
  batter_number : Option String := none
  pitcher_number : Option String := none
  scorecard_summary : Option String := none
  scoring_runners : Option (List String) := none
  runners_batted_in : Option (List String) := none
deriving DecidableEq, Repr

structure InningOut where
  inning : ℤ
  away_runs : ℤ
  home_runs : ℤ
  top_events : List PAOut
  bottom_events : List PAOut
deriving DecidableEq, Repr

structure BatterLine where
  name : String
  at_bats : ℤ
  hits : ℤ
  runs : ℤ
  rbis : ℤ
  average : String
  position : String
  lineup_order : ℤ
deriving DecidableEq, Repr

structure PitcherLine where
  name : String
  innings_pitched : ℚ
  hits : ℤ
  runs : ℤ
  earned_runs : ℤ
  walks : ℤ
  strikeouts : ℤ
  era : String
deriving DecidableEq, Repr

structure Umpire where
  name : String
  position : String
deriving DecidableEq, Repr

/-- A weather value: the scripts store either a plain text condition or,
after the final schedule-weather merge, a condition/temp/wind mapping. -/
inductive WeatherVal where
  | txt (v : String)
  | obj (condition temp wind : String)
deriving DecidableEq, Repr

/-- The normalized GameSummary record.  Option-valued fields model keys
some producers omit entirely (totals, supplementary block). -/
structure Summary where
  game_id : String
  date : String
  away_team : TeamRef
  home_team : TeamRef
  venue : String
  status : String
  innings : List InningOut
  away_batters : List BatterLine := []
  home_batters : List BatterLine := []
  away_pitchers : List PitcherLine := []
  home_pitchers : List PitcherLine := []
  integration_status : String
  note : String
  total_away_runs : Option ℤ := none
  total_home_runs : Option ℤ := none
  umpires : Option (List Umpire) := none
  managers : Option (Option String × Option String) := none
  start_time : Option (Option String) := none
  end_time : Option (Option String) := none
  weather : Option (Option WeatherVal) := none
  wind : Option (Option String) := none
  uniforms : Option (String × String) := none
deriving DecidableEq, Repr

/-- Python truthiness of a possibly-missing integer (`if game_pk:`,
`if not away_team_id`): missing and zero are both falsy. -/
def pyTruthyInt : Option ℤ → Bool
  | some n => n ≠ 0
  | none => false

/-! ## baseball_wrapper.py -/

namespace Wrapper

/-- baseball_wrapper.py extract_plate_appearance_from_custom_format
(lines 175-238). -/
def extract_plate_appearance (a : RawAppearance) : PAOut :=
  let batter_info := a.batter.getD {}
  let pitcher_info := a.pitcher.getD {}
  let pitch_events :=
    ((a.event_list.getD []).filter (fun e => e.pitch_description.isSome)).map
      (fun e =>
        { type := e.pitch_type.getD "Unknown"
        , description := e.pitch_description.getD "Unknown"
        , result := e.pitch_description.getD "Unknown"
        , speed := e.pitch_speed
        , location := e.pitch_position } )
  { batter := pyJoinName batter_info.first_name batter_info.last_name
  , pitcher := pyJoinName pitcher_info.first_name pitcher_info.last_name
  , description := a.plate_appearance_description.getD "Unknown play"
  , summary := a.plate_appearance_summary.getD "?"
  , got_on_base := a.got_on_base.getD false
  , runs_scored :=
      match a.scoring_runners_list with
      | some l => (l.length : ℤ)
      | none => 0
  , rbis :=
      match a.runners_batted_in_list with
      | some l => (l.length : ℤ)
      | none => 0
  , outs := a.inning_outs.getD 0
  , half := if a.mentions_top_half then "top" else "bottom"
  , events := pitch_events }

/-- Inning record built by load_game_data (lines 36-64).  Note that
away_runs counts the top-half events whose runs_scored is positive
(`sum(1 for event in top_events if event.get('runs_scored', 0) > 0)`)
rather than summing the runs themselves. -/
def buildInning (r : RawInning) : InningOut :=
  let top_events := (r.top_half_appearance_list.getD []).map extract_plate_appearance
  let bottom_events := (r.bottom_half_appearance_list.getD []).map extract_plate_appearance
  { inning := r.inning.getD 1
  , away_runs := ((top_events.filter (fun e => 0 < e.runs_scored)).length : ℤ)
  , home_runs := ((bottom_events.filter (fun e => 0 < e.runs_scored)).length : ℤ)
  , top_events := top_events
  , bottom_events := bottom_events }

/-- Batter row of baseball_wrapper.py load_game_data: lineup_order is
the raw enumerate index + 1, counting skipped malformed entries too. -/
def batterLine (i : ℕ) (p : PlayerInfo) (s : StatMap) : BatterLine :=
  { name := pyJoinName p.first_name p.last_name
  , at_bats := s.AB.getD 0
  , hits := s.H.getD 0
  , runs := s.R.getD 0
  , rbis := s.RBI.getD 0
  , average := pyFixed3 (p.obp.getD 0)
  , position := "?"
  , lineup_order := (i + 1 : ℤ) }

/-- Batter rows with the wrapper's enumerate-based lineup_order. -/
def batterLines (entries : List BoxEntry) : List BatterLine :=
  entries.enum.filterMap (fun p => p.2.map (fun e => batterLine p.1 e.1 e.2))

end Wrapper

/-- Pitcher row shared verbatim by baseball_wrapper.py load_game_data
and baseball_json_integration.py (identical literal code in both
files): note era is rendered with a plain f"(value)" conversion, not a
fixed-precision format. -/
def pitcherLine (p : PlayerInfo) (s : StatMap) : PitcherLine :=
  { name := pyJoinName p.first_name p.last_name
  , innings_pitched := s.IP.getD 0
  , hits := s.H.getD 0
  , runs := s.R.getD 0
  , earned_runs := s.ER.getD 0
  , walks := s.BB.getD 0
  , strikeouts := s.SO.getD 0
  , era := pyFloatStr (p.era.getD 0) }

/-- Pitcher rows of one box-score dict (malformed entries skipped). -/
def pitcherLines (entries : List BoxEntry) : List PitcherLine :=
  entries.filterMap (fun e => e.map (fun pr => pitcherLine pr.1 pr.2))

namespace Wrapper

/-- baseball_wrapper.py load_game_data (lines 21-173): none models the
file-read or JSON-parse failure handled by the enclosing try/except
(which returns None). -/
def load_game_data : Option RawLibGame → Option Summary
  | none => none
  | some game_data =>
    let innings_data := (game_data.inning_list.getD []).map buildInning
    some
      { game_id := "world_series_game7"
      , date := "2017-11-01"
      , away_team := { name := "Houston Astros", abbreviation := "HOU" }
      , home_team := { name := "Los Angeles Dodgers", abbreviation := "LAD" }
      , venue := "Dodger Stadium"
      , status := "completed"
      , innings := innings_data
      , away_batters := batterLines (game_data.away_batter_box.getD [])
      , home_batters := batterLines (game_data.home_batter_box.getD [])
      , away_pitchers := pitcherLines (game_data.away_pitcher_box.getD [])
      , home_pitchers := pitcherLines (game_data.home_pitcher_box.getD [])
      , integration_status := "real_data_from_baseball_lib"
      , note := "Real data extracted from Baseball library JSON format" }

end Wrapper

/-! ## Raw remote statistics API documents -/

/-- One entry of the /teams directory. -/
structure ApiTeam where
  id : Option ℤ := none
  name : Option String := none
  abbreviation : Option String := none
  sport_id : Option ℤ := none
deriving DecidableEq, Repr

/-- teams.away / teams.home of a schedule game entry, flattening the
.get('team', ...) chain. -/
structure SchedTeamSide where
  team_id : Option ℤ := none
  team_name : Option String := none
  score : Option ℤ := none
deriving DecidableEq, Repr

/-- An entry of game.officials. -/
structure Official where
  official_type : Option String := none
  firstName : Option String := none
  lastName : Option String := none
  position : Option String := none
deriving DecidableEq, Repr

/-- game.weather of a schedule entry (rarely present). -/
structure SchedWeather where
  condition : Option String := none
  temp : Option String := none
  wind : Option String := none
deriving DecidableEq, Repr

/-- One game entry of a schedule response. -/
structure SchedGame where
  away : Option SchedTeamSide := none
  home : Option SchedTeamSide := none
  game_number : Option ℤ := none
  gamePk : Option ℤ := none
  venue_name : Option String := none
  status_detailed : Option String := none
  gameDate : Option String := none
  officials : Option (List Official) := none
  weather : Option SchedWeather := none
deriving DecidableEq, Repr

/-- One dates group of a schedule response. -/
structure DateGroup where
  games : Option (List SchedGame) := none
deriving DecidableEq, Repr

/-- A /schedule response document. -/
structure ScheduleDoc where
  dates : Option (List DateGroup) := none
deriving DecidableEq, Repr

/-- One coaching-roster entry, flattening person.fullName. -/
structure CoachRec where
  job : Option String := none
  fullName : Option String := none
deriving DecidableEq, Repr

/-- A label/value item of a live-feed info section. -/
structure InfoItem where
  label : Option String := none
  value : Option String := none
deriving DecidableEq, Repr

/-- gameData.weather.wind of a live feed: either a speed/direction
mapping or a plain string. -/
inductive WindVal where
  | obj (speed direction : Option String)
  | txt (s : String)
deriving DecidableEq, Repr

/-- gameData.weather of a live feed (some only when present and
non-empty, matching the Python truthiness guard). -/
structure FeedWeather where
  condition : Option String := none
  wind : Option WindVal := none
deriving DecidableEq, Repr

/-- The parts of a /feed/live response read by the enrichment code.
last_play_end_time stands for allPlays[-1].about.endTime, none when the
play list is empty or the key chain is missing. -/
structure FeedDoc where
  boxscore_info : Option (List InfoItem) := none
  top_info : Option (List InfoItem) := none
  game_weather : Option FeedWeather := none
  game_status : Option String := none
  last_play_end_time : Option String := none
deriving DecidableEq, Repr

/-- One uniformAssets entry. -/
structure UniformAsset where
  asset_type_code : Option String := none
  asset_text : Option String := none
deriving DecidableEq, Repr

/-- The away/home asset lists of one game's uniforms record. -/
structure GameUniforms where
  away_assets : Option (List UniformAsset) := none
  home_assets : Option (List UniformAsset) := none
deriving DecidableEq, Repr

/-- A /uniforms/game response document. -/
structure UniformsDoc where
  uniforms : Option (List GameUniforms) := none
deriving DecidableEq, Repr

/-! ## baseball_json_integration.py -/

namespace JsonInteg

/-- The supplementary mapping built by get_mlb_api_supplementary_data,
with its initialisation defaults (lines 109-120): the uniforms key is
absent until the uniforms fetch succeeds. -/
structure SuppData where
  umpires : List Umpire := []
  managers : Option String × Option String := (none, none)
  start_time : Option String := none
  end_time : Option String := none
  weather : Option WeatherVal := none
  wind : Option String := none
  venue : String := "Unknown Stadium"
  uniforms : Option (String × String) := none
deriving DecidableEq, Repr

/-- Environment of get_mlb_api_supplementary_data.  For the teams and
schedule fetches, none covers both a non-200 status and a raised
exception: the script maps either to the empty mapping (early return,
or the function-wide except of lines 311-315).  For the coaches, feed
and uniforms fetches the two failure modes diverge, so they carry two
Option layers: the outer none means the requests.get or its .json()
raised, which propagates to the function-wide except and aborts the
whole enrichment to the empty mapping; some none means a non-200
status, where the if guard merely skips that block; some (some d) is a
200 response with parsed document d.  The iso fields are the
datetime.fromisoformat/strftime library pipelines used on gameDate and
on the last play's endTime (none = parsing raised, caught locally). -/
structure EnrichEnv where
  teams_fetch : Option (List ApiTeam) := none
  schedule_fetch : Option ScheduleDoc := none
  coaches_fetch : ℤ → Option (Option (List CoachRec)) := fun _ => none
  feed_fetch : Option (Option FeedDoc) := none
  uniforms_fetch : Option (Option UniformsDoc) := none
  iso_start_format : String → Option String := fun _ => none
  iso_end_format : String → Option String := fun _ => none

/-- Team-id scan of lines 53-62: one pass over the directory, skipping
non-MLB records, with an if/elif that lets later matches overwrite
earlier ones and assigns team.get('id') even when that id is missing. -/
def findTeamIds (teams : List ApiTeam) (away_code home_code : String) :
    Option ℤ × Option ℤ :=
  teams.foldl
    (fun acc team =>
      if team.sport_id ≠ some 1 then acc
      else if pyUpper (team.abbreviation.getD "") == pyUpper away_code then (team.id, acc.2)
      else if pyUpper (team.abbreviation.getD "") == pyUpper home_code then (acc.1, team.id)
      else acc)
    (none, none)

/-- Game search of lines 90-100: the inner break stops at the first
match of a dates group, but the outer loop keeps scanning, so a match
in a later group overwrites one found earlier. -/
def findGame (doc : ScheduleDoc) (aid hid : Option ℤ) : Option SchedGame :=
  (doc.dates.getD []).foldl
    (fun acc dg =>
      match (dg.games.getD []).find? (fun game =>
          ((game.away.getD {}).team_id == aid) && ((game.home.getD {}).team_id == hid)) with
      | some g => some g
      | none => acc)
    none

/-- Split once at the first colon, some only when a colon is present
(Python entry.split(':', 1) guarded by `':' in entry`). -/
def splitOnceColon : List Char → Option (List Char × List Char)
  | [] => none
  | c :: cs =>
    if c = ':' then some ([], cs)
    else (splitOnceColon cs).map (fun p => (c :: p.1, p.2))

/-- Umpire assignment parsing of lines 178-187: split the info text on
periods, keep the entries containing a colon, and split each once into
position and name. -/
def parseUmpires (text : String) : List Umpire :=
  (splitChar '.' text.data).filterMap (fun entry =>
    let e := pyStrip (String.mk entry)
    (splitOnceColon e.data).map (fun p =>
      { name := pyStrip (String.mk p.2), position := pyStrip (String.mk p.1) }))

/-- Jersey text selection of lines 287-288: the first asset whose
uniformAssetTypeCode is J, defaulting to the empty string. -/
def jerseyOf (assets : List UniformAsset) : String :=
  match assets.find? (fun u => u.asset_type_code == some "J") with
  | some u => u.asset_text.getD ""
  | none => ""

/-- Manager extraction for one team id (lines 137-152), applied to a
coaches fetch that did not raise: a non-200 response leaves the
manager unset; otherwise the first roster entry whose job is Manager
supplies person.fullName. -/
def managerFor (fetched : Option (List CoachRec)) : Option String :=
  match fetched with
  | some coaches =>
    match coaches.find? (fun c => c.job == some "Manager") with
    | some c => some (c.fullName.getD "")
    | none => none
  | none => none

/-- baseball_json_integration.py get_mlb_api_supplementary_data
(lines 25-315).  none models the empty mapping: it is returned when
the teams directory fetch, the team-id resolution, the schedule fetch
or the schedule game search fails, and also when a coaches, feed or
uniforms request raises, since that exception reaches the
function-wide except of lines 311-315; only a non-200 status on those
three skips just its own block. -/
def get_mlb_api_supplementary_data (env : EnrichEnv)
    (away_code home_code : String) : Option SuppData :=
  match env.teams_fetch with
  | none => none
  | some teams =>
    let ids := findTeamIds teams away_code home_code
    if !(pyTruthyInt ids.1) || !(pyTruthyInt ids.2) then none
    else
      match env.schedule_fetch with
      | none => none
      | some sched =>
        match findGame sched ids.1 ids.2 with
        | none => none
        | some game_data =>
          let base : SuppData :=
            { umpires :=
                ((game_data.officials.getD []).filter
                    (fun u => u.official_type == some "Umpire")).map (fun u =>
                  { name := pyJoinName u.firstName u.lastName
                  , position := u.position.getD "Unknown" })
            , venue := game_data.venue_name.getD "Unknown Stadium" }
          match env.coaches_fetch (ids.1.getD 0) with
          | none => none
          | some r1 =>
          match env.coaches_fetch (ids.2.getD 0) with
          | none => none
          | some r2 =>
          let s0 : SuppData :=
            { base with
              managers :=
                ( managerFor r1
                , if ids.2 == ids.1 then base.managers.2
                  else managerFor r2 ) }
          let game_pk := game_data.gamePk
          let feedStep : Option SuppData :=
            if pyTruthyInt game_pk then
              match env.feed_fetch with
              | none => none
              | some none => some s0
              | some (some feed) =>
                let info_data := feed.boxscore_info.getD []
                let umps :=
                  match info_data.find? (fun it => it.label == some "Umpires") with
                  | some it => parseUmpires (it.value.getD "")
                  | none => []
                let s1 := if umps.isEmpty then s0 else { s0 with umpires := umps }
                let s2 :=
                  match info_data.find? (fun it => it.label == some "First pitch") with
                  | some it => { s1 with start_time := some (it.value.getD "") }
                  | none =>
                    match game_data.gameDate with
                    | some gd =>
                        { s1 with start_time := some ((env.iso_start_format gd).getD "TBD") }
                    | none => s1
                let s3 :=
                  match info_data.find? (fun it => it.label == some "T") with
                  | some it => { s2 with end_time := some ("Duration: " ++ it.value.getD "") }
                  | none => s2
                let s4 :=
                  (feed.top_info.getD []).foldl
                    (fun st it =>
                      if it.label == some "Weather" then
                        { st with weather := some (.txt (it.value.getD "TBD")) }
                      else if it.label == some "Wind" then
                        { st with wind := some (it.value.getD "TBD") }
                      else st)
                    s3
                let s5 :=
                  match feed.game_weather with
                  | some w =>
                    let st := { s4 with weather := some (.txt (w.condition.getD "TBD")) }
                    match w.wind with
                    | some (.obj speed direction) =>
                      let sp := speed.getD ""
                      let dr := direction.getD ""
                      if sp ≠ "" && dr ≠ "" then { st with wind := some (dr ++ " " ++ sp ++ " mph") }
                      else if sp ≠ "" then { st with wind := some (sp ++ " mph") }
                      else st
                    | some (.txt ws) => { st with wind := some ws }
                    | none => st
                  | none => s4
                let s6 :=
                  if feed.game_status == some "Final" then
                    match feed.last_play_end_time with
                    | some et =>
                      match env.iso_end_format et with
                      | some fe => { s5 with end_time := some fe }
                      | none => s5
                    | none => s5
                  else s5
                some s6
            else some s0
          match feedStep with
          | none => none
          | some afterFeed =>
          let uniStep : Option SuppData :=
            if pyTruthyInt game_pk then
              match env.uniforms_fetch with
              | none => none
              | some none => some afterFeed
              | some (some ud) =>
                match ud.uniforms.getD [] with
                | gu :: _ =>
                  some { afterFeed with
                    uniforms := some (jerseyOf (gu.away_assets.getD []),
                                      jerseyOf (gu.home_assets.getD [])) }
                | [] => some afterFeed
            else some afterFeed
          match uniStep with
          | none => none
          | some afterUniforms =>
          let final : SuppData :=
            match game_data.weather with
            | some w =>
              { afterUniforms with
                weather := some (.obj (w.condition.getD "Unknown") (w.temp.getD "Unknown")
                                   (w.wind.getD "Unknown"))
              , wind := some (w.wind.getD "Unknown") }
            | none => afterUniforms
          some final

/-- baseball_json_integration.py extract_plate_appearance_data
(lines 555-629); the half argument defaults to top in Python. -/
def extract_plate_appearance_data (a : RawAppearance) (half : String) : PAOut :=
  let batter_info := a.batter.getD {}
  let pitcher_info := a.pitcher.getD {}
  let pitch_events :=
    (a.event_list.getD []).map (fun e =>
      { type := e.pitch_type.getD "Unknown"
      , description := e.pitch_description.getD "Unknown"
      , result := e.pitch_description.getD "Unknown"
      , speed := e.pitch_speed
      , location := e.pitch_position
      , datetime := e.pitch_datetime } )
  let scoring_runners := a.scoring_runners_list.getD []
  let runners_batted_in := a.runners_batted_in_list.getD []
  { batter := pyJoinName batter_info.first_name batter_info.last_name
  , batter_number := some (batter_info.number.getD "")
  , pitcher := pyJoinName pitcher_info.first_name pitcher_info.last_name
  , pitcher_number := some (pitcher_info.number.getD "")
  , description := a.plate_appearance_description.getD "Unknown play"
  , summary := a.plate_appearance_summary.getD "?"
  , scorecard_summary := some (a.scorecard_summary.getD "?")
  , got_on_base := a.got_on_base.getD false
  , runs_scored := (scoring_runners.length : ℤ)
  , rbis := (runners_batted_in.length : ℤ)
  , outs := a.inning_outs.getD 0
  , half := half
  , events := pitch_events
  , scoring_runners := some (scoring_runners.map (fun r => pyJoinName r.first_name r.last_name))
  , runners_batted_in := some (runners_batted_in.map (fun r => pyJoinName r.first_name r.last_name)) }

/-- Run contribution of one appearance in lines 395-402: the length of
scoring_runners_list when the key is present with a non-empty list,
otherwise nothing; the appearance's own runs_scored field is never
consulted here. -/
def scoringContribution (a : RawAppearance) : ℤ :=
  match a.scoring_runners_list with
  | some l => if l.length ≠ 0 then (l.length : ℤ) else 0
  | none => 0

/-- Accumulation loop of lines 391-402 over one half-inning. -/
def halfRuns (apps : List RawAppearance) : ℤ :=
  apps.foldl (fun acc a => acc + scoringContribution a) 0

/-- Inning record of extract_detailed_data_from_baseball_library
(lines 386-424): the inning number is the enumerate index + 1, not the
raw inning field. -/
def libInning (i : ℕ) (r : RawInning) : InningOut :=
  { inning := (i + 1 : ℤ)
  , away_runs := halfRuns (r.top_half_appearance_list.getD [])
  , home_runs := halfRuns (r.bottom_half_appearance_list.getD [])
  , top_events :=
      (r.top_half_appearance_list.getD []).map (extract_plate_appearance_data · "top")
  , bottom_events :=
      (r.bottom_half_appearance_list.getD []).map (extract_plate_appearance_data · "bottom") }

/-- Batter rows of baseball_json_integration.py: lineup_order is
len(list_so_far) + 1, counting only the appended well-formed entries. -/
def batterLinesAux : List BoxEntry → ℕ → List BatterLine
  | [], _ => []
  | none :: rest, k => batterLinesAux rest k
  | some (p, s) :: rest, k =>
    { name := pyJoinName p.first_name p.last_name
    , at_bats := s.AB.getD 0
    , hits := s.H.getD 0
    , runs := s.R.getD 0
    , rbis := s.RBI.getD 0
    , average := pyFixed3 (p.obp.getD 0)
    , position := "?"
    , lineup_order := (k + 1 : ℤ) } :: batterLinesAux rest (k + 1)

def batterLines (entries : List BoxEntry) : List BatterLine :=
  batterLinesAux entries 0

/-- baseball_json_integration.py
extract_detailed_data_from_baseball_library (lines 369-553). -/
def extract_detailed_data_from_baseball_library (game_data : RawLibGame)
    (game_id date_str away_code home_code : String)
    (msupp : Option SuppData) : Summary :=
  let away_team_name := game_data.away_team_name.getD (away_code ++ " Team")
  let home_team_name := game_data.home_team_name.getD (home_code ++ " Team")
  let venue := game_data.venue.getD (home_code ++ " Stadium")
  let inning_list := (game_data.inning_list.getD []).enum.map (fun p => libInning p.1 p.2)
  let away_batters := batterLines (game_data.away_batter_box.getD [])
  let home_batters := batterLines (game_data.home_batter_box.getD [])
  let away_pitchers := pitcherLines (game_data.away_pitcher_box.getD [])
  let home_pitchers := pitcherLines (game_data.home_pitcher_box.getD [])
  let total_away_runs := (inning_list.map (·.away_runs)).sum
  let total_home_runs := (inning_list.map (·.home_runs)).sum
  let venue_name := match msupp with | some s => s.venue | none => venue
  { game_id := game_id
  , date := date_str
  , away_team := { name := away_team_name, abbreviation := away_code }
  , home_team := { name := home_team_name, abbreviation := home_code }
  , venue := venue_name
  , status := "completed"
  , innings := inning_list
  , away_batters := away_batters
  , home_batters := home_batters
  , away_pitchers := away_pitchers
  , home_pitchers := home_pitchers
  , integration_status := "real_baseball_library_data"
  , note := "Real data from baseball library for " ++ away_code ++ " @ " ++ home_code
              ++ " on " ++ date_str
  , total_away_runs := some total_away_runs
  , total_home_runs := some total_home_runs
  , umpires := some (match msupp with | some s => s.umpires | none => [])
  , managers := some (match msupp with | some s => s.managers | none => (none, none))
  , start_time := some (match msupp with | some s => s.start_time | none => some "TBD")
  , end_time := some (match msupp with | some s => s.end_time | none => some "TBD")
  , weather := some (match msupp with | some s => s.weather | none => some (.txt "TBD"))
  , wind := some (match msupp with | some s => s.wind | none => some "TBD")
  , uniforms := some (match msupp with
      | some s => s.uniforms.getD ("TBD", "TBD")
      | none => ("TBD", "TBD")) }

/-- One inning record of extract_detailed_data_from_json
(lines 656-685): runs come from element 0 of the half-inning stats and
both halves' appearances get the default top half marker. -/
def jsonInningOf (r : RawInning) : InningOut :=
  let top_events :=
    (r.top_half_appearance_list.getD []).map (extract_plate_appearance_data · "top")
  let bottom_events :=
    (r.bottom_half_appearance_list.getD []).map (extract_plate_appearance_data · "top")
  let top_stats := r.top_half_inning_stats.getD [0, 0, 0, 0, 0, 0, 0, 0]
  let bottom_stats := r.bottom_half_inning_stats.getD [0, 0, 0, 0, 0, 0, 0, 0]
  { inning := r.inning.getD 1
  , away_runs := top_stats.getD 0 0
  , home_runs := bottom_stats.getD 0 0
  , top_events := top_events
  , bottom_events := bottom_events }

/-- Inning loop of extract_detailed_data_from_json (lines 643-685):
innings are deduplicated by their inning field via the processed set,
first occurrence winning. -/
def dedupInningsAux : List RawInning → List ℤ → List InningOut
  | [], _ => []
  | r :: rest, seen =>
    let inning_num := r.inning.getD 1
    if inning_num ∈ seen then dedupInningsAux rest seen
    else jsonInningOf r :: dedupInningsAux rest (inning_num :: seen)

/-- baseball_json_integration.py extract_detailed_data_from_json
(lines 631-803), the world_series_game7.json extractor. -/
def extract_detailed_data_from_json (game_data : RawLibGame)
    (game_id date_str away_code home_code : String) : Summary :=
  let inning_list := dedupInningsAux (game_data.inning_list.getD []) []
  let away_batters := batterLines (game_data.away_batter_box.getD [])
  let home_batters := batterLines (game_data.home_batter_box.getD [])
  let away_pitchers := pitcherLines (game_data.away_pitcher_box.getD [])
  let home_pitchers := pitcherLines (game_data.home_pitcher_box.getD [])
  let total_away_runs := (inning_list.map (·.away_runs)).sum
  let total_home_runs := (inning_list.map (·.home_runs)).sum
  { game_id := game_id
  , date := date_str
  , away_team := { name := "Houston Astros", abbreviation := away_code }
  , home_team := { name := "Los Angeles Dodgers", abbreviation := home_code }
  , venue := "Dodger Stadium"
  , status := "completed"
  , innings := inning_list
  , away_batters := away_batters
  , home_batters := home_batters
  , away_pitchers := away_pitchers
  , home_pitchers := home_pitchers
  , integration_status := "real_json_data"
  , note := "Real detailed data from JSON file for " ++ away_code ++ " @ " ++ home_code
              ++ " on " ++ date_str
  , total_away_runs := some total_away_runs
  , total_home_runs := some total_home_runs }

/-- baseball_json_integration.py get_basic_fallback_data
(lines 806-838). -/
def get_basic_fallback_data (game_id date_str away_code home_code : String)
    (msupp : Option SuppData) : Summary :=
  let venue_name := match msupp with | some s => s.venue | none => home_code ++ " Stadium"
  { game_id := game_id
  , date := date_str
  , away_team := { name := away_code ++ " Team", abbreviation := away_code }
  , home_team := { name := home_code ++ " Team", abbreviation := home_code }
  , venue := venue_name
  , status := "completed"
  , innings := []
  , integration_status := "fallback_data"
  , note := "Fallback data due to JSON parsing failure"
  , umpires := some (match msupp with | some s => s.umpires | none => [])
  , managers := some (match msupp with | some s => s.managers | none => (none, none))
  , start_time := some (match msupp with | some s => s.start_time | none => some "TBD")
  , end_time := some (match msupp with | some s => s.end_time | none => some "TBD")
  , weather := some (match msupp with | some s => s.weather | none => some (.txt "TBD"))
  , wind := some (match msupp with | some s => s.wind | none => some "TBD")
  , uniforms := some (match msupp with
      | some s => s.uniforms.getD ("TBD", "TBD")
      | none => ("TBD", "TBD")) }

/-- Result printed by get_detailed_game_data_from_json: either a
normalized summary or the error payload with success false. -/
inductive GateOut where
  | summary (s : Summary)
  | invalidIdError
deriving DecidableEq, Repr

/-- Environment of the json-integration controller: the module-level
library flag and the get_game_from_url outcome (none when the call
raised or returned a falsy game). -/
structure JsonEnv where
  enrich : EnrichEnv := {}
  library_available : Bool := false
  library_game : Option RawLibGame := none

/-- baseball_json_integration.py get_detailed_game_data_from_json
(lines 317-367).  A parse failure raises, is caught and logged, and the
final fallback re-splits the id: six or more parts yield a basic
fallback record built without supplementary data, fewer yield the
error/success-false payload. -/
def get_detailed_game_data_from_json (gid : String) (env : JsonEnv) : GateOut :=
  match parseGameId gid with
  | some g =>
    let msupp := get_mlb_api_supplementary_data env.enrich g.away g.home
    if env.library_available then
      match env.library_game with
      | some game =>
        .summary (extract_detailed_data_from_baseball_library game gid g.dateStr g.away
          g.home msupp)
      | none => .summary (get_basic_fallback_data gid g.dateStr g.away g.home msupp)
    else .summary (get_basic_fallback_data gid g.dateStr g.away g.home msupp)
  | none =>
    let parts := splitDash gid.data
    if parts.length < 6 then .invalidIdError
    else
      .summary (get_basic_fallback_data gid
        ⟨joinDash (parts.take 3)⟩ ⟨parts.getD 3 []⟩ ⟨parts.getD 4 []⟩ none)

/-- What the json-integration entry point writes to standard output. -/
inductive CliOut where
  | payload (g : GateOut)
  | noIdError
deriving DecidableEq, Repr

/-- The module entry of baseball_json_integration.py (lines 840-854):
any produced mapping (summary or error payload alike) is truthy and is
printed with implicit exit code 0; only a missing argument exits 1. -/
def cli_main (arg : Option String) (env : JsonEnv) : ℕ × CliOut :=
  match arg with
  | some gid => (0, .payload (get_detailed_game_data_from_json gid env))
  | none => (1, .noIdError)

end JsonInteg

/-! ## Shared schedule lookup (identical literal code in
baseball_integration_real.py lines 14-93 and
baseball_integration_fixed.py lines 122-201) -/

/-- The games of the first dates group,
`data['dates'][0].get('games', [])` guarded by the non-empty-list
truthiness check of the source. -/
def firstDateGames (data : ScheduleDoc) : List SchedGame :=
  match data.dates with
  | some (dg :: _) => dg.games.getD []
  | _ => []

/-- get_game_pk_from_schedule: date_ok models whether
datetime.strptime(date_str) succeeded (its failure is caught and turned
into None); sched models the schedule fetch outcome. -/
def get_game_pk_from_schedule (date_ok : Bool) (sched : Option ScheduleDoc)
    (away_code home_code : String) (game_number : ℤ) : Option ℤ :=
  if !date_ok then none
  else
    match sched with
    | none => none
    | some data =>
      let away_team_name := tableGet team_names away_code (away_code ++ " Team")
      let home_team_name := tableGet team_names home_code (home_code ++ " Team")
      match (firstDateGames data).find? (fun game =>
          ((game.away.getD {}).team_name.getD "" == away_team_name) &&
          ((game.home.getD {}).team_name.getD "" == home_team_name) &&
          (game.game_number.getD 1 == game_number)) with
      | some game => game.gamePk
      | none => none

/-- In-place update of the last inning record,
inning_list[-1]['away_runs'] = away_score etc., guarded by
`if inning_list:` in the source. -/
def setLastRuns : List InningOut → ℤ → ℤ → List InningOut
  | [], _, _ => []
  | [x], a, h => [{ x with away_runs := a, home_runs := h }]
  | x :: y :: xs, a, h => x :: setLastRuns (y :: xs) a h

/-! ## baseball_integration_real.py -/

namespace RealInteg

/-- Environment of the real-API controller: the strptime outcome and
the two independent schedule fetches (get_game_pk_from_schedule and
get_mlb_game_details_from_schedule each fetch the schedule again). -/
structure Env where
  date_ok : Bool := false
  sched1 : Option ScheduleDoc := none
  sched2 : Option ScheduleDoc := none

/-- baseball_integration_real.py get_mlb_game_details_from_schedule
(lines 95-188): nine zero-run innings with the final score written into
the ninth, and totals taken directly from the schedule scores. -/
def get_mlb_game_details_from_schedule (date_ok : Bool)
    (sched : Option ScheduleDoc) (game_pk : ℤ)
    (game_id date_str away_code home_code : String) : Option Summary :=
  if !date_ok then none
  else
    match sched with
    | none => none
    | some data =>
      match (firstDateGames data).find? (fun game => game.gamePk == some game_pk) with
      | none => none
      | some game_data =>
        let away_team := game_data.away.getD {}
        let home_team := game_data.home.getD {}
        let away_score := away_team.score.getD 0
        let home_score := home_team.score.getD 0
        let base : List InningOut :=
          (List.range 9).map (fun i =>
            { inning := (i + 1 : ℤ), away_runs := 0, home_runs := 0
            , top_events := [], bottom_events := [] })
        let inning_list := setLastRuns base away_score home_score
        some
          { game_id := game_id
          , date := date_str
          , away_team := { name := away_team.team_name.getD (away_code ++ " Team")
                         , abbreviation := away_code }
          , home_team := { name := home_team.team_name.getD (home_code ++ " Team")
                         , abbreviation := home_code }
          , venue := game_data.venue_name.getD (home_code ++ " Stadium")
          , status := game_data.status_detailed.getD "Unknown"
          , innings := inning_list
          , integration_status := "real_mlb_schedule_data"
          , note := "Real scores from MLB schedule API for " ++ away_code ++ " @ "
                      ++ home_code ++ " on " ++ date_str
          , total_away_runs := some away_score
          , total_home_runs := some home_score }

/-- The inline fallback mock record of lines 222-241: built purely from
the identifier, CODE Team / CODE Stadium for every code. -/
def fallback_mock (gid : String) (g : GameId) : Summary :=
  { game_id := gid
  , date := g.dateStr
  , away_team := { name := g.away ++ " Team", abbreviation := g.away }
  , home_team := { name := g.home ++ " Team", abbreviation := g.home }
  , venue := g.home ++ " Stadium"
  , status := "completed"
  , innings := []
  , integration_status := "fallback_mock_data"
  , note := "Fallback mock data due to API unavailability" }

/-- The inline error-fallback record of lines 248-261 (the except
handler's return value). -/
def error_fallback (gid : String) : Summary :=
  { game_id := gid
  , date := "2025-09-14"
  , away_team := { name := "Unknown Team", abbreviation := "UNK" }
  , home_team := { name := "Unknown Team", abbreviation := "UNK" }
  , venue := "Unknown Stadium"
  , status := "completed"
  , innings := []
  , integration_status := "error_fallback"
  , note := "Error fallback data" }

/-- baseball_integration_real.py get_detailed_game_data
(lines 190-261): an unparsable id raises inside the try block and the
handler returns the error-fallback record; otherwise a truthy gamePk is
resolved into schedule details, with the fallback mock record covering
every failure. -/
def get_detailed_game_data (gid : String) (env : Env) : Summary :=
  match parseGameId gid with
  | some g =>
    match (if pyTruthyInt (get_game_pk_from_schedule env.date_ok env.sched1 g.away g.home
        (g.gameNumber : ℤ)) then
        get_mlb_game_details_from_schedule env.date_ok env.sched2
          ((get_game_pk_from_schedule env.date_ok env.sched1 g.away g.home
            (g.gameNumber : ℤ)).getD 0) gid g.dateStr g.away g.home
      else none) with
    | some d => d
    | none => fallback_mock gid g
  | none => error_fallback gid

end RealInteg

/-! ## Customisation of the template record (identical literal code in
baseball_integration_fixed.py lines 31-120 and baseball_integration.py
lines 325-411, the latter with a duplicate NYM entry that the dict
literal collapses) -/

/-- Typed view of customize_game_data as applied to a loaded template
summary: exactly the seven keys game_id, date, away_team, home_team,
venue, integration_status and note are overwritten. -/
def customizeSummary (d : Summary) (date_str away_code home_code : String)
    (game_number : ℕ) : Summary :=
  { d with
    game_id := date_str ++ "-" ++ away_code ++ "-" ++ home_code ++ "-"
                 ++ ⟨natToChars game_number⟩
  , date := date_str
  , away_team := { name := tableGet team_names away_code (away_code ++ " Team")
                 , abbreviation := away_code }
  , home_team := { name := tableGet team_names home_code (home_code ++ " Team")
                 , abbreviation := home_code }
  , venue := tableGet venue_mapping home_code (home_code ++ " Stadium")
  , integration_status := "customized_template_data"
  , note := "Template data customized for " ++ away_code ++ " @ " ++ home_code ++ " on "
              ++ date_str }

/-! ## Python dict model for the key-level frame property of
customize_game_data -/

/-- A Python/JSON value, sufficient for the records the scripts pass to
customize_game_data. -/
inductive PyVal where
  | str (s : String)
  | int (n : ℤ)
  | bool (b : Bool)
  | pynone
  | list (xs : List PyVal)
  | dict (kvs : List (String × PyVal))

/-- Python d.get(k): the first binding of k (dicts carry unique keys). -/
def dictGet (d : List (String × PyVal)) (k : String) : Option PyVal :=
  match d.find? (fun p => p.1 == k) with
  | some p => some p.2
  | none => none

/-- Python d[k] = v: replace the first binding in place when the key
exists (dicts carry unique keys), otherwise append it (insertion-order
semantics). -/
def dictSet : List (String × PyVal) → String → PyVal → List (String × PyVal)
  | [], k, v => [(k, v)]
  | p :: rest, k, v => if p.1 == k then (k, v) :: rest else p :: dictSet rest k v

/-- customize_game_data at the dict level: the template mapping is
shallow-copied (template_data.copy(), so the caller's mapping is never
mutated) and the seven listed keys are assigned on the copy. -/
def customize_game_data (template_data : List (String × PyVal))
    (date_str away_code home_code : String) (game_number : ℕ) :
    List (String × PyVal) :=
  let customized := template_data
  let customized := dictSet customized "game_id"
    (.str (date_str ++ "-" ++ away_code ++ "-" ++ home_code ++ "-"
      ++ ⟨natToChars game_number⟩))
  let customized := dictSet customized "date" (.str date_str)
  let customized := dictSet customized "away_team"
    (.dict [("name", .str (tableGet team_names away_code (away_code ++ " Team"))),
            ("abbreviation", .str away_code)])
  let customized := dictSet customized "home_team"
    (.dict [("name", .str (tableGet team_names home_code (home_code ++ " Team"))),
            ("abbreviation", .str home_code)])
  let customized := dictSet customized "venue"
    (.str (tableGet venue_mapping home_code (home_code ++ " Stadium")))
  let customized := dictSet customized "integration_status" (.str "customized_template_data")
  let customized := dictSet customized "note"
    (.str ("Template data customized for " ++ away_code ++ " @ " ++ home_code ++ " on "
      ++ date_str))
  customized

/-! ## baseball_integration_fixed.py -/

namespace FixedInteg

/-- One linescore.innings entry, flattening the away.runs and
home.runs key chains. -/
structure LinescoreInning where
  away_runs : Option ℤ := none
  home_runs : Option ℤ := none
deriving DecidableEq, Repr

/-- The parts of the /feed/live response read by
get_mlb_game_details. -/
structure FixedFeed where
  away_team_name : Option String := none
  home_team_name : Option String := none
  linescore_innings : List LinescoreInning := []
  venue_name : Option String := none
  status_detailed : Option String := none
deriving DecidableEq, Repr

/-- Environment of the fixed controller. -/
structure Env where
  date_ok : Bool := false
  sched : Option ScheduleDoc := none
  feed : Option FixedFeed := none
  template : Option RawLibGame := none

/-- One linescore inning of get_mlb_game_details (lines 228-239):
the runs of inning.get('away', ...).get('runs', 0) are packaged with
the enumerate index + 1. -/
def linescoreInning (i : ℕ) (l : LinescoreInning) : InningOut :=
  { inning := (i + 1 : ℤ)
  , away_runs := l.away_runs.getD 0
  , home_runs := l.home_runs.getD 0
  , top_events := []
  , bottom_events := [] }

/-- baseball_integration_fixed.py get_mlb_game_details
(lines 203-303); the game_pk argument only feeds the fetch URL. -/
def get_mlb_game_details (feed : Option FixedFeed) (_game_pk : ℤ)
    (game_id date_str away_code home_code : String) : Option Summary :=
  match feed with
  | none => none
  | some data =>
    let inning_list := data.linescore_innings.enum.map (fun p => linescoreInning p.1 p.2)
    let total_away_runs := (inning_list.map (·.away_runs)).sum
    let total_home_runs := (inning_list.map (·.home_runs)).sum
    some
      { game_id := game_id
      , date := date_str
      , away_team := { name := data.away_team_name.getD (away_code ++ " Team")
                     , abbreviation := away_code }
      , home_team := { name := data.home_team_name.getD (home_code ++ " Team")
                     , abbreviation := home_code }
      , venue := data.venue_name.getD "Unknown Stadium"
      , status := data.status_detailed.getD "Unknown"
      , innings := inning_list
      , integration_status := "real_mlb_api_data"
      , note := "Real data from MLB API for " ++ away_code ++ " @ " ++ home_code ++ " on "
                  ++ date_str
      , total_away_runs := some total_away_runs
      , total_home_runs := some total_home_runs }

/-- baseball_integration_fixed.py get_basic_mock_data (lines 339-360):
the final fallback is built purely from the identifier, every code
rendered as CODE Team / CODE Stadium without consulting any table. -/
def get_basic_mock_data (game_id date_str away_code home_code : String) : Summary :=
  { game_id := game_id
  , date := date_str
  , away_team := { name := away_code ++ " Team", abbreviation := away_code }
  , home_team := { name := home_code ++ " Team", abbreviation := home_code }
  , venue := home_code ++ " Stadium"
  , status := "completed"
  , innings := []
  , integration_status := "fallback_mock_data"
  , note := "Fallback mock data due to API unavailability" }

/-- baseball_integration_fixed.py get_template_data_fallback
(lines 305-337): the template file is loaded through the wrapper and
customized; any failure falls through to the basic mock record. -/
def get_template_data_fallback (game_id date_str away_code home_code : String)
    (game_number : ℕ) (template : Option RawLibGame) : Summary :=
  match Wrapper.load_game_data template with
  | some data => customizeSummary data date_str away_code home_code game_number
  | none => get_basic_mock_data game_id date_str away_code home_code

/-- Result of the fixed controller: on an unparsable id the except
handler itself references the unbound date_str and raises NameError. -/
inductive FixedOut where
  | summary (s : Summary)
  | nameError
deriving DecidableEq, Repr

/-- baseball_integration_fixed.py get_detailed_game_data
(lines 362-401). -/
def get_detailed_game_data (gid : String) (env : Env) : FixedOut :=
  match parseGameId gid with
  | some g =>
    let game_pk := get_game_pk_from_schedule env.date_ok env.sched g.away g.home
      (g.gameNumber : ℤ)
    let detailed :=
      if pyTruthyInt game_pk then
        get_mlb_game_details env.feed (game_pk.getD 0) gid g.dateStr g.away g.home
      else none
    match detailed with
    | some d => .summary d
    | none =>
      .summary (get_template_data_fallback gid g.dateStr g.away g.home g.gameNumber
        env.template)
  | none => .nameError

end FixedInteg

/-! ## baseball_integration.py -/

namespace Integ

/-- The enhanced mock record of baseball_integration.py lines 452-587,
returned whenever the template path yields nothing; only game_id varies
with the request. -/
def enhancedMock (gid : String) : Summary :=
  { game_id := gid
  , date := "2025-09-14"
  , away_team := { name := "Tampa Bay Rays", abbreviation := "TB" }
  , home_team := { name := "Chicago Cubs", abbreviation := "CHC" }
  , venue := "Wrigley Field"
  , status := "completed"
  , innings :=
      [ { inning := 1, away_runs := 2, home_runs := 0
        , top_events :=
            [ { batter := "Yandy Díaz", pitcher := "Justin Steele"
              , description := "Single to center field", summary := "1B"
              , got_on_base := true, runs_scored := 0, rbis := 0, outs := 0, half := "top"
              , events :=
                  [ { type := "Fastball", description := "Called Strike", result := "0-1" }
                  , { type := "Slider", description := "Ball", result := "1-1" }
                  , { type := "Fastball", description := "In play, single", result := "1B" } ] }
            , { batter := "Randy Arozarena", pitcher := "Justin Steele"
              , description := "Home run to left field", summary := "HR"
              , got_on_base := true, runs_scored := 1, rbis := 2, outs := 0, half := "top"
              , events :=
                  [ { type := "Fastball", description := "Ball", result := "1-0" }
                  , { type := "Curveball", description := "Home run", result := "HR" } ] }
            , { batter := "Isaac Paredes", pitcher := "Justin Steele"
              , description := "Strikeout swinging", summary := "K"
              , got_on_base := false, runs_scored := 0, rbis := 0, outs := 1, half := "top"
              , events :=
                  [ { type := "Fastball", description := "Called Strike", result := "0-1" }
                  , { type := "Slider", description := "Swinging Strike", result := "0-2" }
                  , { type := "Fastball", description := "Swinging Strike", result := "K" } ] } ]
        , bottom_events :=
            [ { batter := "Nico Hoerner", pitcher := "Tyler Glasnow"
              , description := "Ground out to shortstop", summary := "6-3"
              , got_on_base := false, runs_scored := 0, rbis := 0, outs := 1, half := "bottom"
              , events :=
                  [ { type := "Fastball", description := "Ball", result := "1-0" }
                  , { type := "Curveball", description := "Ground out", result := "6-3" } ] } ] }
      , { inning := 2, away_runs := 0, home_runs := 1
        , top_events := []
        , bottom_events :=
            [ { batter := "Cody Bellinger", pitcher := "Tyler Glasnow"
              , description := "Home run to right field", summary := "HR"
              , got_on_base := true, runs_scored := 1, rbis := 1, outs := 0, half := "bottom"
              , events :=
                  [ { type := "Fastball", description := "Home run", result := "HR" } ] } ] } ]
  , away_batters :=
      [ { name := "Yandy Díaz", at_bats := 4, hits := 2, runs := 1, rbis := 0
        , average := "0.285", position := "1B", lineup_order := 1 }
      , { name := "Randy Arozarena", at_bats := 4, hits := 1, runs := 1, rbis := 2
        , average := "0.254", position := "LF", lineup_order := 2 }
      , { name := "Isaac Paredes", at_bats := 4, hits := 1, runs := 0, rbis := 0
        , average := "0.267", position := "3B", lineup_order := 3 }
      , { name := "Harold Ramírez", at_bats := 3, hits := 1, runs := 0, rbis := 0
        , average := "0.298", position := "DH", lineup_order := 4 }
      , { name := "Josh Lowe", at_bats := 3, hits := 0, runs := 0, rbis := 0
        , average := "0.292", position := "RF", lineup_order := 5 } ]
  , home_batters :=
      [ { name := "Nico Hoerner", at_bats := 4, hits := 1, runs := 0, rbis := 0
        , average := "0.283", position := "2B", lineup_order := 1 }
      , { name := "Cody Bellinger", at_bats := 4, hits := 2, runs := 1, rbis := 1
        , average := "0.307", position := "1B", lineup_order := 2 }
      , { name := "Seiya Suzuki", at_bats := 4, hits := 1, runs := 0, rbis := 0
        , average := "0.285", position := "RF", lineup_order := 3 }
      , { name := "Christopher Morel", at_bats := 3, hits := 0, runs := 0, rbis := 0
        , average := "0.247", position := "3B", lineup_order := 4 }
      , { name := "Ian Happ", at_bats := 3, hits := 1, runs := 0, rbis := 0
        , average := "0.248", position := "LF", lineup_order := 5 } ]
  , away_pitchers :=
      [ { name := "Tyler Glasnow", innings_pitched := 6, hits := 5, runs := 3
        , earned_runs := 3, walks := 2, strikeouts := 7, era := "3.53" } ]
  , home_pitchers :=
      [ { name := "Justin Steele", innings_pitched := 5.2, hits := 6, runs := 4
        , earned_runs := 4, walks := 1, strikeouts := 6, era := "3.06" } ]
  , integration_status := "enhanced_mock_data"
  , note := "Enhanced mock data with realistic player names, pitch sequences, and traditional scorecard information. Ready for Baseball library integration." }

/-- A Baseball-library Player object as probed attribute by attribute
in extract_batter_data / extract_pitcher_data (none = hasattr false). -/
structure LibPlayer where
  name : Option String := none
  at_bats : Option ℤ := none
  hits : Option ℤ := none
  runs : Option ℤ := none
  rbis : Option ℤ := none
  average : Option ℚ := none
  position : Option String := none
  lineup_order : Option ℤ := none
  innings_pitched : Option ℚ := none
  earned_runs : Option ℤ := none
  walks : Option ℤ := none
  strikeouts : Option ℤ := none
  era : Option ℚ := none
deriving DecidableEq, Repr

/-- baseball_integration.py extract_batter_data (lines 275-299):
average renders with a .3f format, but only when the attribute exists
and is truthy (non-zero); otherwise the literal 0.000. -/
def extract_batter_data (b : LibPlayer) : BatterLine :=
  { name := b.name.getD "Unknown"
  , at_bats := b.at_bats.getD 0
  , hits := b.hits.getD 0
  , runs := b.runs.getD 0
  , rbis := b.rbis.getD 0
  , average :=
      match b.average with
      | some v => if v ≠ 0 then pyFixed3 v else "0.000"
      | none => "0.000"
  , position := b.position.getD "?"
  , lineup_order := b.lineup_order.getD 0 }

/-- baseball_integration.py extract_pitcher_data (lines 300-324):
era renders with a .2f format under the same existence-and-truthiness
guard, otherwise the literal 0.00. -/
def extract_pitcher_data (p : LibPlayer) : PitcherLine :=
  { name := p.name.getD "Unknown"
  , innings_pitched := p.innings_pitched.getD 0
  , hits := p.hits.getD 0
  , runs := p.runs.getD 0
  , earned_runs := p.earned_runs.getD 0
  , walks := p.walks.getD 0
  , strikeouts := p.strikeouts.getD 0
  , era :=
      match p.era with
      | some v => if v ≠ 0 then pyFixed2 v else "0.00"
      | none => "0.00" }

/-- Environment of the template controller: the template file read
through the wrapper (none covers a missing sample file, a missing
wrapper script and a load failure alike, all of which the script logs
and then leaves the template path). -/
structure Env where
  template : Option RawLibGame := none

/-- Result of baseball_integration.py get_detailed_game_data: the
error payload of lines 590-593 carries no integration_status key. -/
inductive IntegOut where
  | summary (s : Summary)
  | errorDict (game_id : String)
deriving DecidableEq, Repr

/-- baseball_integration.py get_detailed_game_data (lines 412-593):
parse failures raise out of the template phase and reach the outer
handler, which returns the bare error payload; for parsable ids the
template is customized when available, the enhanced mock otherwise. -/
def get_detailed_game_data (gid : String) (env : Env) : IntegOut :=
  match parseGameId gid with
  | some g =>
    match Wrapper.load_game_data env.template with
    | some data => .summary (customizeSummary data g.dateStr g.away g.home g.gameNumber)
    | none => .summary (enhancedMock gid)
  | none => .errorDict gid

/-- What main prints to standard output. -/
inductive MainOut where
  | payload (r : IntegOut)
  | noIdError
deriving DecidableEq, Repr

/-- baseball_integration.py main (lines 594-605): a missing argument
prints the error object and exits 1; otherwise the result dict is
printed and the process exits 0 (get_detailed_game_data never raises,
so the except branch of main is unreachable). -/
def main (arg : Option String) (env : Env) : ℕ × MainOut :=
  match arg with
  | some gid => (0, .payload (get_detailed_game_data gid env))
  | none => (1, .noIdError)

end Integ

/-! ## Example inputs used by witnesses and counterexamples -/

/-- Example schedule game with gamePk 5 and final score 3-2. -/
def exSchedGame : SchedGame :=
  { away := some { team_id := some 1, team_name := some "Tampa Bay Rays", score := some 3 }
  , home := some { team_id := some 2, team_name := some "Chicago Cubs", score := some 2 }
  , game_number := some 1
  , gamePk := some 5
  , venue_name := some "Wrigley Field"
  , status_detailed := some "Final" }

/-- Example schedule document holding just exSchedGame, used to
exercise the schedule-details producer. -/
def exSchedDoc : ScheduleDoc :=
  { dates := some [{ games := some [exSchedGame] }] }

/-- A top-half plate appearance with two scoring runners. -/
def exTopApp : RawAppearance :=
  { scoring_runners_list := some [{ first_name := some "A" }, { first_name := some "B" }] }

/-- A bottom-half plate appearance with no scoring-runner list. -/
def exBottomApp : RawAppearance := {}

/-- The spec's run-counting scenario: one top-half appearance with two
scoring runners, one bottom-half appearance with none. -/
def exRawInning : RawInning :=
  { inning := some 1
  , top_half_appearance_list := some [exTopApp]
  , bottom_half_appearance_list := some [exBottomApp] }

/-- A raw game whose inning list carries two records with the same
inning number 1. -/
def exDupGame : RawLibGame :=
  { inning_list := some [{ inning := some 1 }, { inning := some 1 }] }

/-- A team directory resolving TB to id 1 and CHC to id 2. -/
def exTeams : List ApiTeam :=
  [{ id := some 1, name := some "Tampa Bay Rays", abbreviation := some "TB"
   , sport_id := some 1 },
   { id := some 2, name := some "Chicago Cubs", abbreviation := some "CHC"
   , sport_id := some 1 }]

/-- A live-feed document carrying an umpires info line. -/
def exFeedDoc : FeedDoc :=
  { boxscore_info := some [{ label := some "Umpires"
                           , value := some "HP: Marvin Hudson. 1B: Hunter Wendelstedt." }] }

/-- An enrichment environment in which only the teams-directory fetch
fails while every later fetch would succeed with rich data. -/
def exEnrichEnvTeamsFail : JsonInteg.EnrichEnv :=
  { teams_fetch := none
  , schedule_fetch := some exSchedDoc
  , coaches_fetch := fun _ => some (some [{ job := some "Manager", fullName := some "Skip" }])
  , feed_fetch := some (some exFeedDoc)
  , uniforms_fetch := some (some { uniforms := some [{}] }) }

/-- The same environment with the teams-directory fetch succeeding. -/
def exEnrichEnvOk : JsonInteg.EnrichEnv :=
  { teams_fetch := some exTeams
  , schedule_fetch := some exSchedDoc
  , coaches_fetch := fun _ => some (some [{ job := some "Manager", fullName := some "Skip" }])
  , feed_fetch := some (some exFeedDoc)
  , uniforms_fetch := some (some { uniforms := some [{}] }) }

/-- A template record with extra keys, standing for a loaded game
document handed to customize_game_data. -/
def exTemplate : List (String × PyVal) :=
  [("game_id", .str "world_series_game7"), ("status", .str "completed"),
   ("innings", .list []), ("events", .list [])]

/-! ## Codec lemmas -/

theorem splitCharCore_append (sep : Char) (xs ys : List Char) :
    splitCharCore sep (xs ++ sep :: ys) =
      ((splitCharCore sep xs).1, (splitCharCore sep xs).2 ++ splitChar sep ys) := by
  induction xs with
  | nil => simp [splitCharCore, splitChar]
  | cons c cs ih =>
    simp only [List.cons_append, splitCharCore, ih]
    by_cases h : c = sep <;> simp [h, ih]

theorem splitChar_append (sep : Char) (xs ys : List Char) :
    splitChar sep (xs ++ sep :: ys) = splitChar sep xs ++ splitChar sep ys := by
  simp [splitChar, splitCharCore_append]

theorem splitCharCore_of_not_mem {sep : Char} {xs : List Char} (h : sep ∉ xs) :
    splitCharCore sep xs = (xs, []) := by
  induction xs with
  | nil => rfl
  | cons c cs ih =>
    simp only [List.mem_cons, not_or] at h
    have hcs : ¬c = sep := fun hh => h.1 hh.symm
    simp [splitCharCore, ih h.2, hcs]

theorem splitChar_of_not_mem {sep : Char} {xs : List Char} (h : sep ∉ xs) :
    splitChar sep xs = [xs] := by
  simp [splitChar, splitCharCore_of_not_mem h]

theorem joinDash_core (s : List Char) :
    joinDash ((splitCharCore '-' s).1 :: (splitCharCore '-' s).2) = s := by
  induction s with
  | nil => rfl
  | cons c cs ih =>
    by_cases hc : c = '-'
    · subst hc
      simp only [splitCharCore, if_pos rfl]
      calc joinDash ([] :: (splitCharCore '-' cs).1 :: (splitCharCore '-' cs).2)
          = '-' :: joinDash ((splitCharCore '-' cs).1 :: (splitCharCore '-' cs).2) := by
            simp [joinDash]
        _ = '-' :: cs := by rw [ih]
    · simp only [splitCharCore, if_neg hc]
      cases hps : (splitCharCore '-' cs).2 with
      | nil =>
        rw [hps] at ih
        simp only [joinDash] at ih ⊢
        simp [ih]
      | cons q qs =>
        rw [hps] at ih
        simp only [joinDash] at ih ⊢
        simp [ih]

theorem joinDash_splitDash (s : List Char) : joinDash (splitDash s) = s :=
  joinDash_core s

theorem natToCharsAux_congr :
    ∀ n f1 f2 : ℕ, n < f1 → n < f2 → ∀ acc,
      natToCharsAux f1 n acc = natToCharsAux f2 n acc := by
  intro n
  induction n using Nat.strong_induction_on with
  | _ n ih =>
    intro f1 f2 h1 h2 acc
    obtain ⟨g1, rfl⟩ : ∃ g, f1 = g + 1 := ⟨f1 - 1, by omega⟩
    obtain ⟨g2, rfl⟩ : ∃ g, f2 = g + 1 := ⟨f2 - 1, by omega⟩
    simp only [natToCharsAux]
    by_cases hn : n < 10
    · simp [hn]
    · have hdiv : n / 10 < n := Nat.div_lt_self (by omega) (by omega)
      simp only [if_neg hn]
      exact ih (n / 10) hdiv g1 g2 (by omega) (by omega) _

theorem natToCharsAux_acc :
    ∀ n f : ℕ, n < f → ∀ acc,
      natToCharsAux f n acc = natToCharsAux f n [] ++ acc := by
  intro n
  induction n using Nat.strong_induction_on with
  | _ n ih =>
    intro f hf acc
    obtain ⟨g, rfl⟩ : ∃ g, f = g + 1 := ⟨f - 1, by omega⟩
    simp only [natToCharsAux]
    by_cases hn : n < 10
    · simp [hn]
    · have hdiv : n / 10 < n := Nat.div_lt_self (by omega) (by omega)
      have hg : n / 10 < g := by omega
      simp only [if_neg hn]
      rw [ih (n / 10) hdiv g hg (digitChar (n % 10) :: acc),
        ih (n / 10) hdiv g hg [digitChar (n % 10)]]
      simp

theorem natToChars_eq (n : ℕ) :
    natToChars n =
      if n < 10 then [digitChar n]
      else natToChars (n / 10) ++ [digitChar (n % 10)] := by
  by_cases hn : n < 10
  · simp [natToChars, natToCharsAux, hn]
  · have hdiv : n / 10 < n := Nat.div_lt_self (by omega) (by omega)
    simp only [natToChars, natToCharsAux, if_neg hn]
    rw [natToCharsAux_congr (n / 10) n (n / 10 + 1) (by omega) (by omega),
      natToCharsAux_acc (n / 10) (n / 10 + 1) (by omega)]
    simp only [natToCharsAux]

theorem digitChar_toNat (d : ℕ) : (digitChar d).toNat = 48 + d % 10 := by
  have h : d % 10 < 10 := Nat.mod_lt _ (by norm_num)
  unfold digitChar
  set k := d % 10 with hk
  interval_cases k <;> rfl

theorem natToChars_digits {n : ℕ} {c : Char} (hc : c ∈ natToChars n) :
    48 ≤ c.toNat ∧ c.toNat ≤ 57 := by
  induction n using Nat.strong_induction_on with
  | _ n ih =>
    rw [natToChars_eq] at hc
    by_cases hn : n < 10
    · simp [hn] at hc
      subst hc
      rw [digitChar_toNat]
      have := Nat.mod_lt n (show 0 < 10 by norm_num)
      omega
    · have hdiv : n / 10 < n := Nat.div_lt_self (by omega) (by omega)
      simp only [if_neg hn, List.mem_append, List.mem_singleton] at hc
      rcases hc with hc | hc
      · exact ih (n / 10) hdiv hc
      · subst hc
        rw [digitChar_toNat]
        have := Nat.mod_lt n (show 0 < 10 by norm_num)
        omega

theorem dash_not_mem_natToChars (n : ℕ) : '-' ∉ natToChars n := by
  intro h
  have h2 := natToChars_digits h
  have h3 : ('-' : Char).toNat = 45 := rfl
  omega

theorem natToChars_ne_nil (n : ℕ) : natToChars n ≠ [] := by
  rw [natToChars_eq]
  by_cases hn : n < 10 <;> simp [hn]

theorem digitVal_digitChar (d : ℕ) : digitVal (digitChar d) = some (d % 10) := by
  have h : d % 10 < 10 := Nat.mod_lt _ (by norm_num)
  simp only [digitVal, digitChar_toNat]
  rw [if_pos (by omega)]
  congr 1
  omega

theorem natParseAux_append (xs ys : List Char) (acc : ℕ) :
    natParseAux (xs ++ ys) acc =
      match natParseAux xs acc with
      | some a => natParseAux ys a
      | none => none := by
  induction xs generalizing acc with
  | nil => rfl
  | cons c cs ih =>
    simp only [List.cons_append, natParseAux]
    cases digitVal c <;> simp [ih]

theorem natParseAux_natToChars (n : ℕ) :
    ∀ acc : ℕ, natParseAux (natToChars n) acc =
      some (acc * 10 ^ (natToChars n).length + n) := by
  induction n using Nat.strong_induction_on with
  | _ n ih =>
    intro acc
    rw [natToChars_eq]
    by_cases hn : n < 10
    · simp only [if_pos hn, natParseAux, digitVal_digitChar]
      have : n % 10 = n := Nat.mod_eq_of_lt hn
      simp [this]
    · have hdiv : n / 10 < n := Nat.div_lt_self (by omega) (by omega)
      simp only [if_neg hn]
      rw [natParseAux_append]
      rw [ih (n / 10) hdiv acc]
      simp only [natParseAux, digitVal_digitChar]
      have hlen : ((natToChars (n / 10)) ++ [digitChar (n % 10)]).length
          = (natToChars (n / 10)).length + 1 := by simp
      rw [hlen]
      congr 1
      have h9 : n % 10 % 10 = n % 10 := by omega
      have hd : n / 10 * 10 + n % 10 = n := by omega
      rw [h9, pow_succ]
      calc (acc * 10 ^ (natToChars (n / 10)).length + n / 10) * 10 + n % 10
          = acc * (10 ^ (natToChars (n / 10)).length * 10) + (n / 10 * 10 + n % 10) := by
            ring
        _ = acc * (10 ^ (natToChars (n / 10)).length * 10) + n := by rw [hd]

theorem natParse_natToChars (n : ℕ) : natParse (natToChars n) = some n := by
  have hne := natToChars_ne_nil n
  cases hcs : natToChars n with
  | nil => exact absurd hcs hne
  | cons c cs =>
    have := natParseAux_natToChars n 0
    rw [hcs] at this
    simpa [natParse] using this

theorem formatGameId_data (g : GameId) :
    (formatGameId g).data
      = g.dateStr.data ++ '-' :: (g.away.data ++ '-' ::
          (g.home.data ++ '-' :: natToChars g.gameNumber)) := by
  show g.dateStr.data ++ ['-'] ++ g.away.data ++ ['-'] ++ g.home.data ++ ['-']
      ++ natToChars g.gameNumber = _
  simp [List.append_assoc]

theorem parse_formatGameId (g : GameId) (h : ValidGameId g) :
    parseGameId (formatGameId g) = some g := by
  obtain ⟨h3, hA, hH⟩ := h
  obtain ⟨d0, d1, d2, hD⟩ := List.length_eq_three.mp h3
  have hparts : splitDash (formatGameId g).data
      = [d0, d1, d2, g.away.data, g.home.data, natToChars g.gameNumber] := by
    rw [formatGameId_data g]
    show splitChar '-' _ = _
    rw [splitChar_append, splitChar_append, splitChar_append]
    rw [show splitChar '-' g.dateStr.data = [d0, d1, d2] from hD]
    rw [splitChar_of_not_mem hA, splitChar_of_not_mem hH,
      splitChar_of_not_mem (dash_not_mem_natToChars _)]
    rfl
  have hjoin : d0 ++ '-' :: (d1 ++ '-' :: d2) = g.dateStr.data := by
    have hj := joinDash_splitDash g.dateStr.data
    rw [show splitDash g.dateStr.data = [d0, d1, d2] from hD] at hj
    simpa [joinDash] using hj
  unfold parseGameId
  rw [hparts]
  simp only [List.length_cons, List.length_nil, List.getD, List.get?, Option.getD,
    natParse_natToChars]
  norm_num
  have hdate : (⟨d0 ++ '-' :: (d1 ++ '-' :: d2)⟩ : String) = g.dateStr := by
    apply String.ext
    exact hjoin
  rw [hdate]

theorem format_parseGameId (s : String) (f0 f1 f2 f3 f4 : List Char) (k : ℕ)
    (h : splitDash s.data = [f0, f1, f2, f3, f4, natToChars k]) :
    ∃ g, parseGameId s = some g ∧ formatGameId g = s := by
  refine ⟨⟨⟨f0 ++ '-' :: (f1 ++ '-' :: f2)⟩, ⟨f3⟩, ⟨f4⟩, k⟩, ?_, ?_⟩
  · unfold parseGameId
    rw [h]
    simp only [List.length_cons, List.length_nil, List.getD, List.get?, Option.getD,
      natParse_natToChars]
    norm_num
  · apply String.ext
    rw [formatGameId_data]
    show (f0 ++ '-' :: (f1 ++ '-' :: f2)) ++ '-' :: (f3 ++ '-' :: (f4 ++ '-' :: natToChars k))
        = s.data
    have hj := joinDash_splitDash s.data
    rw [h] at hj
    simp only [joinDash] at hj
    rw [← hj]
    simp [List.append_assoc]

/-! ## Claim theorems -/

/-- C6: the identifier codec round-trips.  For every structurally valid
GameIdentifier, parsing its canonical rendering recovers it exactly;
and every string of the canonical six-field YYYY-MM-DD-AWAY-HOME-N
shape (the sixth field being the canonical decimal form of a number) is
reproduced verbatim by rendering its parse. -/
theorem C6_codec_roundtrip :
    (∀ g : GameId, ValidGameId g → parseGameId (formatGameId g) = some g) ∧
    (∀ (s : String) (f0 f1 f2 f3 f4 : List Char) (k : ℕ),
      splitDash s.data = [f0, f1, f2, f3, f4, natToChars k] →
      ∃ g, parseGameId s = some g ∧ formatGameId g = s) :=
  ⟨parse_formatGameId, format_parseGameId⟩

/-- Witness for C6 at the spec's example identifier
2025-09-14-TB-CHC-1. -/
theorem C6_codec_roundtrip_witness :
    parseGameId (formatGameId ⟨"2025-09-14", "TB", "CHC", 1⟩)
        = some ⟨"2025-09-14", "TB", "CHC", 1⟩ ∧
      ∃ g, parseGameId "2025-09-14-TB-CHC-1" = some g ∧
        formatGameId g = "2025-09-14-TB-CHC-1" :=
  ⟨C6_codec_roundtrip.1 ⟨"2025-09-14", "TB", "CHC", 1⟩ (by decide),
   C6_codec_roundtrip.2 "2025-09-14-TB-CHC-1" "2025".data "09".data "14".data "TB".data
     "CHC".data 1 (by decide)⟩

theorem realDetailsStatus {ok : Bool} {sched : Option ScheduleDoc} {pk : ℤ}
    {gid ds ac hc : String} {d : Summary}
    (h : RealInteg.get_mlb_game_details_from_schedule ok sched pk gid ds ac hc = some d) :
    d.integration_status = "real_mlb_schedule_data" := by
  unfold RealInteg.get_mlb_game_details_from_schedule at h
  split at h
  · simp at h
  · split at h
    · simp at h
    · split at h
      · simp at h
      · injection h with h
        subst h
        rfl

/-- C1: for every identifier the codec accepts, both top-level
resolution entry points (baseball_integration_real.py and
baseball_integration.py) return a summary record rather than raising,
whatever the adapter environment does, and its integrationStatus field
is non-empty. -/
theorem C1_resolve_totality (gid : String) (g : GameId)
    (hparse : parseGameId gid = some g) :
    (∀ env : RealInteg.Env,
      (RealInteg.get_detailed_game_data gid env).integration_status ≠ "") ∧
    (∀ env : Integ.Env, ∃ s,
      Integ.get_detailed_game_data gid env = .summary s ∧ s.integration_status ≠ "") := by
  constructor
  · intro env
    have hmain : RealInteg.get_detailed_game_data gid env
        = (match (if pyTruthyInt (get_game_pk_from_schedule env.date_ok env.sched1 g.away
              g.home (g.gameNumber : ℤ)) then
              RealInteg.get_mlb_game_details_from_schedule env.date_ok env.sched2
                ((get_game_pk_from_schedule env.date_ok env.sched1 g.away g.home
                  (g.gameNumber : ℤ)).getD 0) gid g.dateStr g.away g.home
            else none) with
          | some d => d
          | none => RealInteg.fallback_mock gid g) := by
      unfold RealInteg.get_detailed_game_data
      rw [hparse]
    rw [hmain]
    cases hd : (if pyTruthyInt (get_game_pk_from_schedule env.date_ok env.sched1 g.away
        g.home (g.gameNumber : ℤ)) then
        RealInteg.get_mlb_game_details_from_schedule env.date_ok env.sched2
          ((get_game_pk_from_schedule env.date_ok env.sched1 g.away g.home
            (g.gameNumber : ℤ)).getD 0) gid g.dateStr g.away g.home
      else none) with
    | none =>
      show (RealInteg.fallback_mock gid g).integration_status ≠ ""
      exact (by decide : ("fallback_mock_data" : String) ≠ "")
    | some d =>
      show d.integration_status ≠ ""
      cases hpk : pyTruthyInt (get_game_pk_from_schedule env.date_ok env.sched1 g.away
        g.home (g.gameNumber : ℤ)) with
      | false => rw [hpk] at hd; simp at hd
      | true =>
        rw [hpk] at hd
        simp only [if_pos] at hd
        rw [realDetailsStatus hd]
        decide
  · intro env
    unfold Integ.get_detailed_game_data
    rw [hparse]
    cases hload : Wrapper.load_game_data env.template with
    | some data =>
      exact ⟨_, rfl, (by decide : ("customized_template_data" : String) ≠ "")⟩
    | none =>
      exact ⟨_, rfl, (by decide : ("enhanced_mock_data" : String) ≠ "")⟩

/-- Witness for C1 at 2025-09-14-TB-CHC-1 with the default (all-failing)
adapter environments. -/
theorem C1_resolve_totality_witness :
    (RealInteg.get_detailed_game_data "2025-09-14-TB-CHC-1" {}).integration_status ≠ "" ∧
    ∃ s, Integ.get_detailed_game_data "2025-09-14-TB-CHC-1" {} = .summary s ∧
      s.integration_status ≠ "" :=
  ⟨(C1_resolve_totality "2025-09-14-TB-CHC-1" ⟨"2025-09-14", "TB", "CHC", 1⟩ (by decide)).1 {},
   (C1_resolve_totality "2025-09-14-TB-CHC-1" ⟨"2025-09-14", "TB", "CHC", 1⟩ (by decide)).2 {}⟩

/-- C3: every summary produced by the three total-emitting producers
(the library extractor and json extractor of
baseball_json_integration.py and the schedule producer of
baseball_integration_real.py) carries totalAwayRuns equal to the sum of
awayRuns over its innings, and likewise for home. -/
theorem C3_totals_invariant :
    (∀ (game_data : RawLibGame) (gid ds ac hc : String)
        (msupp : Option JsonInteg.SuppData),
      (JsonInteg.extract_detailed_data_from_baseball_library game_data gid ds ac hc
          msupp).total_away_runs
        = some (((JsonInteg.extract_detailed_data_from_baseball_library game_data gid ds ac
            hc msupp).innings.map (·.away_runs)).sum) ∧
      (JsonInteg.extract_detailed_data_from_baseball_library game_data gid ds ac hc
          msupp).total_home_runs
        = some (((JsonInteg.extract_detailed_data_from_baseball_library game_data gid ds ac
            hc msupp).innings.map (·.home_runs)).sum)) ∧
    (∀ (game_data : RawLibGame) (gid ds ac hc : String),
      (JsonInteg.extract_detailed_data_from_json game_data gid ds ac hc).total_away_runs
        = some (((JsonInteg.extract_detailed_data_from_json game_data gid ds ac
            hc).innings.map (·.away_runs)).sum) ∧
      (JsonInteg.extract_detailed_data_from_json game_data gid ds ac hc).total_home_runs
        = some (((JsonInteg.extract_detailed_data_from_json game_data gid ds ac
            hc).innings.map (·.home_runs)).sum)) ∧
    (∀ (ok : Bool) (sched : Option ScheduleDoc) (pk : ℤ) (gid ds ac hc : String)
        (s : Summary),
      RealInteg.get_mlb_game_details_from_schedule ok sched pk gid ds ac hc = some s →
      s.total_away_runs = some ((s.innings.map (·.away_runs)).sum) ∧
      s.total_home_runs = some ((s.innings.map (·.home_runs)).sum)) := by
  refine ⟨fun _ _ _ _ _ _ => ⟨rfl, rfl⟩, fun _ _ _ _ _ => ⟨rfl, rfl⟩, ?_⟩
  intro ok sched pk gid ds ac hc s h
  unfold RealInteg.get_mlb_game_details_from_schedule at h
  split at h
  · simp at h
  · split at h
    · simp at h
    · split at h
      · simp at h
      · injection h with h
        subst h
        have hbase : ((List.range 9).map (fun i =>
            ({ inning := (i + 1 : ℤ), away_runs := 0, home_runs := 0
             , top_events := [], bottom_events := [] } : InningOut)))
            = [⟨1, 0, 0, [], []⟩, ⟨2, 0, 0, [], []⟩, ⟨3, 0, 0, [], []⟩, ⟨4, 0, 0, [], []⟩,
               ⟨5, 0, 0, [], []⟩, ⟨6, 0, 0, [], []⟩, ⟨7, 0, 0, [], []⟩, ⟨8, 0, 0, [], []⟩,
               ⟨9, 0, 0, [], []⟩] := by decide
        constructor <;>
          · simp only [hbase, setLastRuns, List.map_cons, List.map_nil, List.sum_cons,
              List.sum_nil]
            norm_num

/-- Witness for C3: the first two producers at the empty raw game, the
schedule producer at a concrete one-game schedule with final score
3-2. -/
theorem C3_totals_invariant_witness :
    ((JsonInteg.extract_detailed_data_from_baseball_library {} "g" "d" "TB" "CHC"
        none).total_away_runs
      = some (((JsonInteg.extract_detailed_data_from_baseball_library {} "g" "d" "TB" "CHC"
          none).innings.map (·.away_runs)).sum) ∧
     (JsonInteg.extract_detailed_data_from_baseball_library {} "g" "d" "TB" "CHC"
        none).total_home_runs
      = some (((JsonInteg.extract_detailed_data_from_baseball_library {} "g" "d" "TB" "CHC"
          none).innings.map (·.home_runs)).sum)) ∧
    ((RealInteg.get_mlb_game_details_from_schedule true (some exSchedDoc) 5 "g" "d" "TB"
          "CHC").getD (RealInteg.error_fallback "g")).total_away_runs
      = some (((((RealInteg.get_mlb_game_details_from_schedule true (some exSchedDoc) 5 "g"
          "d" "TB" "CHC").getD (RealInteg.error_fallback "g")).innings.map
            (·.away_runs)).sum)) :=
  ⟨(C3_totals_invariant.1 {} "g" "d" "TB" "CHC" none),
   ((C3_totals_invariant.2.2 true (some exSchedDoc) 5 "g" "d" "TB" "CHC"
      ((RealInteg.get_mlb_game_details_from_schedule true (some exSchedDoc) 5 "g" "d" "TB"
        "CHC").getD (RealInteg.error_fallback "g")) (by rfl)).1)⟩

theorem scoringContribution_eq (a : RawAppearance) :
    JsonInteg.scoringContribution a = ((a.scoring_runners_list.getD []).length : ℤ) := by
  unfold JsonInteg.scoringContribution
  rcases h : a.scoring_runners_list with _ | l
  · rfl
  · by_cases hl : l.length ≠ 0 <;> simp [hl]
    omega

theorem halfRuns_foldl (apps : List RawAppearance) :
    ∀ init : ℤ,
      apps.foldl (fun acc a => acc + JsonInteg.scoringContribution a) init
        = init + (apps.map JsonInteg.scoringContribution).sum := by
  induction apps with
  | nil => simp
  | cons a rest ih =>
    intro init
    simp only [List.foldl_cons, List.map_cons, List.sum_cons, ih]
    ring

/-- C2 counterexample: in baseball_wrapper.py load_game_data, the
scenario inning (one top-half appearance with two scoring runners, one
bottom-half appearance with none) is normalized with awayRuns 1, not
the claimed 2. -/
theorem C2_run_counting_counterexample :
    (Wrapper.buildInning exRawInning).away_runs = 1 ∧
    ¬ ((Wrapper.buildInning exRawInning).away_runs = 2 ∧
       (Wrapper.buildInning exRawInning).home_runs = 0) := by
  decide

/-- C2 amended: in extract_detailed_data_from_baseball_library, an
inning's awayRuns is the sum over its top-half appearances of the
length of scoring_runners_list (zero when the list is absent), and the
appearance's own runs_scored field is never consulted; there the
scenario yields awayRuns 2 / homeRuns 0.  In load_game_data of
baseball_wrapper.py, awayRuns instead counts the top-half appearances
having at least one scoring runner, so the scenario yields awayRuns
1. -/
theorem C2_run_counting_amended :
    (∀ apps : List RawAppearance,
      JsonInteg.halfRuns apps
        = (apps.map (fun a => ((a.scoring_runners_list.getD []).length : ℤ))).sum) ∧
    (∀ a : RawAppearance, ∀ v : Option ℤ,
      JsonInteg.scoringContribution { a with runs_scored := v }
        = JsonInteg.scoringContribution a) ∧
    (∀ r : RawInning,
      (Wrapper.buildInning r).away_runs
        = (((r.top_half_appearance_list.getD []).filter
            (fun a => !(a.scoring_runners_list.getD []).isEmpty)).length : ℤ)) ∧
    ((JsonInteg.libInning 0 exRawInning).away_runs = 2 ∧
     (JsonInteg.libInning 0 exRawInning).home_runs = 0) ∧
    (Wrapper.buildInning exRawInning).away_runs = 1 := by
  refine ⟨?_, ?_, ?_, by decide, by decide⟩
  · intro apps
    unfold JsonInteg.halfRuns
    rw [halfRuns_foldl]
    simp only [zero_add]
    congr 1
    exact List.map_congr_left (fun a _ => scoringContribution_eq a)
  · intro a v
    rfl
  · intro r
    unfold Wrapper.buildInning
    simp only []
    rw [List.filter_map]
    rw [List.length_map]
    congr 1
    congr 1
    apply List.filter_congr
    intro a _
    unfold Wrapper.extract_plate_appearance
    rcases h : a.scoring_runners_list with _ | l
    · simp [h]
    · rcases l with _ | ⟨x, xs⟩ <;> simp [h]

theorem dedupInningsAux_nodup (raws : List RawInning) :
    ∀ seen : List ℤ,
      ((JsonInteg.dedupInningsAux raws seen).map (·.inning)).Nodup ∧
      ∀ x ∈ JsonInteg.dedupInningsAux raws seen, x.inning ∉ seen := by
  induction raws with
  | nil => intro seen; simp [JsonInteg.dedupInningsAux]
  | cons r rest ih =>
    intro seen
    by_cases hmem : r.inning.getD 1 ∈ seen
    · simp only [JsonInteg.dedupInningsAux, if_pos hmem]
      exact (ih seen)
    · simp only [JsonInteg.dedupInningsAux, if_neg hmem]
      obtain ⟨ihn, ihs⟩ := ih (r.inning.getD 1 :: seen)
      refine ⟨?_, ?_⟩
      · simp only [List.map_cons, List.nodup_cons]
        refine ⟨?_, ihn⟩
        intro hcontra
        obtain ⟨x, hx, hxeq⟩ := List.mem_map.mp hcontra
        have := ihs x hx
        rw [hxeq] at this
        exact this (by
          show (JsonInteg.jsonInningOf r).inning ∈ _
          simp [JsonInteg.jsonInningOf])
      · intro x hx
        rcases List.mem_cons.mp hx with hx | hx
        · subst hx
          show (JsonInteg.jsonInningOf r).inning ∉ seen
          simpa [JsonInteg.jsonInningOf] using hmem
        · have := ihs x hx
          intro hcon
          exact this (List.mem_cons_of_mem _ hcon)

theorem dedupInningsAux_firstWins (raws : List RawInning) :
    ∀ (seen : List ℤ) (n : ℤ), n ∉ seen →
      (JsonInteg.dedupInningsAux raws seen).find? (fun io => io.inning == n)
        = (raws.find? (fun r => r.inning.getD 1 == n)).map JsonInteg.jsonInningOf := by
  induction raws with
  | nil => intro seen n _; simp [JsonInteg.dedupInningsAux]
  | cons r rest ih =>
    intro seen n hn
    by_cases hmem : r.inning.getD 1 ∈ seen
    · have hne : (r.inning.getD 1 == n) = false := by
        simp only [beq_eq_false_iff_ne, ne_eq]
        intro hcon
        exact hn (hcon ▸ hmem)
      simp only [JsonInteg.dedupInningsAux, if_pos hmem, List.find?_cons, hne]
      exact ih seen n hn
    · simp only [JsonInteg.dedupInningsAux, if_neg hmem]
      by_cases heq : r.inning.getD 1 = n
      · have h1 : ((JsonInteg.jsonInningOf r).inning == n) = true := by
          simp [JsonInteg.jsonInningOf, heq]
        have h2 : (r.inning.getD 1 == n) = true := by simp [heq]
        simp only [List.find?_cons, h1, h2]
        rfl
      · have h1 : ((JsonInteg.jsonInningOf r).inning == n) = false := by
          simp [JsonInteg.jsonInningOf, heq]
        have h2 : (r.inning.getD 1 == n) = false := by simp [heq]
        simp only [List.find?_cons, h1, h2]
        refine ih (r.inning.getD 1 :: seen) n ?_
        intro hc
        rcases List.mem_cons.mp hc with hc | hc
        · exact heq hc.symm
        · exact hn hc

/-- C4 counterexample: baseball_wrapper.py load_game_data keeps a
duplicate raw inning record, so the produced summary carries two
InningLine records sharing the inning number 1. -/
theorem C4_dedup_counterexample :
    (Wrapper.load_game_data (some exDupGame)).map (fun s => s.innings.map (·.inning))
        = some [1, 1] ∧
    ¬ ([1, 1] : List ℤ).Nodup := by decide

/-- C4 amended: only extract_detailed_data_from_json deduplicates
innings by inning number, first raw occurrence winning, so its
summaries never repeat a number; the library extractor numbers innings
positionally and cannot repeat either; but load_game_data of
baseball_wrapper.py copies the raw inning numbers verbatim, duplicates
included. -/
theorem C4_dedup_amended :
    (∀ (game_data : RawLibGame) (gid ds ac hc : String),
      ((JsonInteg.extract_detailed_data_from_json game_data gid ds ac
        hc).innings.map (·.inning)).Nodup) ∧
    (∀ (raws : List RawInning) (n : ℤ),
      (JsonInteg.dedupInningsAux raws []).find? (fun io => io.inning == n)
        = (raws.find? (fun r => r.inning.getD 1 == n)).map JsonInteg.jsonInningOf) ∧
    (∀ (game_data : RawLibGame) (gid ds ac hc : String)
        (msupp : Option JsonInteg.SuppData),
      ((JsonInteg.extract_detailed_data_from_baseball_library game_data gid ds ac hc
        msupp).innings.map (·.inning)).Nodup) ∧
    (∀ game_data : RawLibGame,
      (Wrapper.load_game_data (some game_data)).map (fun s => s.innings.map (·.inning))
        = some ((game_data.inning_list.getD []).map (fun r => r.inning.getD 1))) := by
  refine ⟨?_, ?_, ?_, ?_⟩
  · intro game_data gid ds ac hc
    exact (dedupInningsAux_nodup (game_data.inning_list.getD []) []).1
  · intro raws n
    exact dedupInningsAux_firstWins raws [] n (by simp)
  · intro game_data gid ds ac hc msupp
    show ((((game_data.inning_list.getD []).enum.map
      (fun p => JsonInteg.libInning p.1 p.2)).map (·.inning))).Nodup
    have hmap : (((game_data.inning_list.getD []).enum.map
        (fun p => JsonInteg.libInning p.1 p.2)).map (·.inning))
        = ((game_data.inning_list.getD []).enum.map Prod.fst).map
            (fun i : ℕ => ((i : ℤ) + 1)) := by
      rw [List.map_map, List.map_map]
      rfl
    rw [hmap, List.enum_map_fst]
    refine List.Nodup.map ?_ (List.nodup_range _)
    intro a b hab
    simpa using hab
  · intro game_data
    show some (((game_data.inning_list.getD []).map Wrapper.buildInning).map (·.inning))
        = _
    simp [List.map_map, Function.comp, Wrapper.buildInning]

/-- C5 counterexample: with every adapter failing (default environment:
no schedule, no feed, no template) the fixed controller returns the
basic mock record, whose venue for home code CHC is CHC Stadium, not
the claimed Wrigley Field, even though its provenance tag is
fallback_mock_data. -/
theorem C5_fallback_venue_counterexample :
    FixedInteg.get_detailed_game_data "2025-09-14-TB-CHC-1" {}
        = .summary (FixedInteg.get_basic_mock_data "2025-09-14-TB-CHC-1" "2025-09-14" "TB"
            "CHC") ∧
    (FixedInteg.get_basic_mock_data "2025-09-14-TB-CHC-1" "2025-09-14" "TB"
        "CHC").integration_status = "fallback_mock_data" ∧
    (FixedInteg.get_basic_mock_data "2025-09-14-TB-CHC-1" "2025-09-14" "TB"
        "CHC").venue = "CHC Stadium" ∧
    ¬ (FixedInteg.get_basic_mock_data "2025-09-14-TB-CHC-1" "2025-09-14" "TB"
        "CHC").venue = "Wrigley Field" := by decide

/-- C5 amended: when the schedule lookup yields no truthy gamePk and
the template cannot be loaded, the fixed controller returns
get_basic_mock_data, which is built purely from the identifier and
renders every code as CODE Team / CODE Stadium without consulting any
table, tagged fallback_mock_data; the static code-to-venue table (CHC
to Wrigley Field) is only consulted on the customized-template path,
tagged customized_template_data. -/
theorem C5_fallback_mock_amended :
    (∀ (gid : String) (g : GameId) (env : FixedInteg.Env),
      parseGameId gid = some g →
      pyTruthyInt (get_game_pk_from_schedule env.date_ok env.sched g.away g.home
        (g.gameNumber : ℤ)) = false →
      Wrapper.load_game_data env.template = none →
      FixedInteg.get_detailed_game_data gid env
        = .summary (FixedInteg.get_basic_mock_data gid g.dateStr g.away g.home)) ∧
    (∀ gid ds ac hc : String,
      (FixedInteg.get_basic_mock_data gid ds ac hc).away_team
          = { name := ac ++ " Team", abbreviation := ac } ∧
      (FixedInteg.get_basic_mock_data gid ds ac hc).home_team
          = { name := hc ++ " Team", abbreviation := hc } ∧
      (FixedInteg.get_basic_mock_data gid ds ac hc).venue = hc ++ " Stadium" ∧
      (FixedInteg.get_basic_mock_data gid ds ac hc).integration_status
          = "fallback_mock_data") ∧
    (∀ (d : Summary) (ds ac : String) (n : ℕ),
      (customizeSummary d ds ac "CHC" n).venue = "Wrigley Field" ∧
      (customizeSummary d ds ac "CHC" n).integration_status
          = "customized_template_data") := by
  refine ⟨?_, fun _ _ _ _ => ⟨rfl, rfl, rfl, rfl⟩, fun _ _ _ _ => ⟨rfl, rfl⟩⟩
  intro gid g env hparse hpk hload
  have hmain : FixedInteg.get_detailed_game_data gid env
      = (match (if pyTruthyInt (get_game_pk_from_schedule env.date_ok env.sched g.away
            g.home (g.gameNumber : ℤ)) then
            FixedInteg.get_mlb_game_details env.feed
              ((get_game_pk_from_schedule env.date_ok env.sched g.away g.home
                (g.gameNumber : ℤ)).getD 0) gid g.dateStr g.away g.home
          else none) with
        | some d => FixedInteg.FixedOut.summary d
        | none => .summary (FixedInteg.get_template_data_fallback gid g.dateStr g.away
            g.home g.gameNumber env.template)) := by
    unfold FixedInteg.get_detailed_game_data
    rw [hparse]
  rw [hmain, hpk]
  show FixedInteg.FixedOut.summary (FixedInteg.get_template_data_fallback gid g.dateStr
    g.away g.home g.gameNumber env.template) = _
  unfold FixedInteg.get_template_data_fallback
  rw [hload]

/-- Witness for C5's amended theorem at 2025-09-14-TB-CHC-1 with the
default all-failing environment. -/
theorem C5_fallback_mock_amended_witness :
    FixedInteg.get_detailed_game_data "2025-09-14-TB-CHC-1" {}
        = .summary (FixedInteg.get_basic_mock_data "2025-09-14-TB-CHC-1" "2025-09-14" "TB"
            "CHC") ∧
    (FixedInteg.get_basic_mock_data "g" "d" "TB" "CHC").venue = "CHC" ++ " Stadium" ∧
    (customizeSummary (FixedInteg.get_basic_mock_data "g" "d" "TB" "CHC") "d" "TB"
        "CHC" 1).venue = "Wrigley Field" :=
  ⟨C5_fallback_mock_amended.1 "2025-09-14-TB-CHC-1" ⟨"2025-09-14", "TB", "CHC", 1⟩ {}
      (by decide) (by decide) rfl,
   (C5_fallback_mock_amended.2.1 "g" "d" "TB" "CHC").2.2.1,
   (C5_fallback_mock_amended.2.2 (FixedInteg.get_basic_mock_data "g" "d" "TB" "CHC") "d"
      "TB" 1).1⟩

/-- C7 counterexample: the json-integration entry point exits 0 on the
unparsable id not-a-game-id, printing the error payload, where the
claim demands a non-zero exit. -/
theorem C7_cli_exit_counterexample :
    (JsonInteg.cli_main (some "not-a-game-id") {}).1 = 0 ∧
    (JsonInteg.cli_main (some "not-a-game-id") {}).2
        = .payload .invalidIdError ∧
    ¬ (JsonInteg.cli_main (some "not-a-game-id") {}).1 ≠ 0 := by decide

/-- C7 amended: the CLIs exit 0 and print a payload whenever an
identifier argument is present, and a missing identifier is the only
condition that exits non-zero.  A parsable identifier yields a
GameSummary; an unparsable identifier with fewer than six
hyphen-separated fields yields the error/success-false payload (and no
summary) from the json entry point; an unparsable identifier with six
or more fields - a non-integer game number - still yields a
basic-fallback GameSummary built without supplementary data, by the
final fallback that re-splits the id. -/
theorem C7_cli_amended :
    (∀ env : JsonInteg.JsonEnv, JsonInteg.cli_main none env = (1, .noIdError)) ∧
    (∀ (gid : String) (g : GameId) (env : JsonInteg.JsonEnv),
      parseGameId gid = some g →
      ∃ s, JsonInteg.cli_main (some gid) env = (0, .payload (.summary s))) ∧
    (∀ (gid : String) (env : JsonInteg.JsonEnv),
      (splitDash gid.data).length < 6 →
      JsonInteg.cli_main (some gid) env = (0, .payload .invalidIdError)) ∧
    (∀ (gid : String) (env : JsonInteg.JsonEnv),
      parseGameId gid = none → 6 ≤ (splitDash gid.data).length →
      JsonInteg.cli_main (some gid) env
        = (0, .payload (.summary (JsonInteg.get_basic_fallback_data gid
            ⟨joinDash ((splitDash gid.data).take 3)⟩ ⟨(splitDash gid.data).getD 3 []⟩
            ⟨(splitDash gid.data).getD 4 []⟩ none)))) ∧
    (∀ env : Integ.Env, Integ.main none env = (1, .noIdError)) ∧
    (∀ (gid : String) (env : Integ.Env), (Integ.main (some gid) env).1 = 0) := by
  refine ⟨fun _ => rfl, ?_, ?_, ?_, fun _ => rfl, fun _ _ => rfl⟩
  · intro gid g env hparse
    have hgate : ∃ s, JsonInteg.get_detailed_game_data_from_json gid env = .summary s := by
      cases hb : env.library_available with
      | false =>
        refine ⟨JsonInteg.get_basic_fallback_data gid g.dateStr g.away g.home
          (JsonInteg.get_mlb_api_supplementary_data env.enrich g.away g.home), ?_⟩
        simp [JsonInteg.get_detailed_game_data_from_json, hparse, hb]
      | true =>
        cases hg : env.library_game with
        | some game =>
          refine ⟨JsonInteg.extract_detailed_data_from_baseball_library game gid g.dateStr
            g.away g.home
            (JsonInteg.get_mlb_api_supplementary_data env.enrich g.away g.home), ?_⟩
          simp [JsonInteg.get_detailed_game_data_from_json, hparse, hb, hg]
        | none =>
          refine ⟨JsonInteg.get_basic_fallback_data gid g.dateStr g.away g.home
            (JsonInteg.get_mlb_api_supplementary_data env.enrich g.away g.home), ?_⟩
          simp [JsonInteg.get_detailed_game_data_from_json, hparse, hb, hg]
    obtain ⟨s, hs⟩ := hgate
    refine ⟨s, ?_⟩
    rw [show JsonInteg.cli_main (some gid) env
        = (0, .payload (JsonInteg.get_detailed_game_data_from_json gid env)) from rfl, hs]
  · intro gid env h
    have hnone : parseGameId gid = none := by
      unfold parseGameId
      rw [if_pos h]
    have hgate : JsonInteg.get_detailed_game_data_from_json gid env = .invalidIdError := by
      simp [JsonInteg.get_detailed_game_data_from_json, hnone, if_pos h]
    rw [show JsonInteg.cli_main (some gid) env
        = (0, .payload (JsonInteg.get_detailed_game_data_from_json gid env)) from rfl,
      hgate]
  · intro gid env hparse h6
    have hlt : ¬ (splitDash gid.data).length < 6 := Nat.not_lt.mpr h6
    have hgate : JsonInteg.get_detailed_game_data_from_json gid env
        = .summary (JsonInteg.get_basic_fallback_data gid
            ⟨joinDash ((splitDash gid.data).take 3)⟩ ⟨(splitDash gid.data).getD 3 []⟩
            ⟨(splitDash gid.data).getD 4 []⟩ none) := by
      simp [JsonInteg.get_detailed_game_data_from_json, hparse, hlt]
    rw [show JsonInteg.cli_main (some gid) env
        = (0, .payload (JsonInteg.get_detailed_game_data_from_json gid env)) from rfl,
      hgate]

/-- Witness for C7's amended theorem: a parsable id through the json
entry point under the default environment, the unparsable short
not-a-game-id, and the six-field id 2025-09-14-TB-CHC-x whose game
number is not an integer. -/
theorem C7_cli_amended_witness :
    (∃ s, JsonInteg.cli_main (some "2025-09-14-TB-CHC-1") {}
        = (0, .payload (.summary s))) ∧
    JsonInteg.cli_main (some "not-a-game-id") {} = (0, .payload .invalidIdError) ∧
    (∃ s, JsonInteg.cli_main (some "2025-09-14-TB-CHC-x") {}
        = (0, .payload (.summary s))) ∧
    (Integ.main (some "not-a-game-id") {}).1 = 0 :=
  ⟨C7_cli_amended.2.1 "2025-09-14-TB-CHC-1" ⟨"2025-09-14", "TB", "CHC", 1⟩ {} (by decide),
   C7_cli_amended.2.2.1 "not-a-game-id" {} (by decide),
   ⟨_, C7_cli_amended.2.2.2.1 "2025-09-14-TB-CHC-x" {} (by decide) (by decide)⟩,
   C7_cli_amended.2.2.2.2.2 "not-a-game-id" {}⟩

/-- C8 counterexample: the pitcher rows of baseball_json_integration.py
and baseball_wrapper.py render a missing era as the plain string
conversion of the 0.00 default, producing 0.0 rather than the claimed
fixed two-decimal 0.00, and a present 3.5 as 3.5 rather than 3.50. -/
theorem C8_era_format_counterexample :
    (pitcherLines [some (({} : PlayerInfo), ({} : StatMap))]).map (·.era) = ["0.0"] ∧
    ¬ (pitcherLines [some (({} : PlayerInfo), ({} : StatMap))]).map (·.era) = ["0.00"] ∧
    (pitcherLine { era := some (mkRat 7 2) } {}).era = "3.5" := by
  refine ⟨by decide, by decide, by decide⟩

/-- C8 amended: batting averages are indeed always rendered with a
three-decimal format (and an absent average renders exactly 0.000), and
baseball_integration.py's extract_pitcher_data renders era with a
two-decimal format (0.00 when the attribute is missing); but the
pitcher rows of baseball_json_integration.py and baseball_wrapper.py
render era by plain string conversion of the raw value, yielding 0.0
when it is absent. -/
theorem C8_format_amended :
    (∀ q : ℚ, ∃ a b : String, pyFixed3 q = a ++ "." ++ b ∧ b.length = 3) ∧
    pyFixed3 0 = "0.000" ∧
    (∀ q : ℚ, ∃ a b : String, pyFixed2 q = a ++ "." ++ b ∧ b.length = 2) ∧
    (∀ p : Integ.LibPlayer, p.era = none → (Integ.extract_pitcher_data p).era = "0.00") ∧
    (∀ b : Integ.LibPlayer, b.average = none → (Integ.extract_batter_data b).average = "0.000") ∧
    (∀ (p : PlayerInfo) (s : StatMap), (pitcherLine p s).era = pyFloatStr (p.era.getD 0)) ∧
    (pitcherLine {} {}).era = "0.0" := by
  refine ⟨?_, by decide, ?_, ?_, ?_, fun _ _ => rfl, by decide⟩
  · intro q
    by_cases h : roundHalfEven (q.num * 1000) (q.den : ℤ) < 0
    · refine ⟨"-" ++ ⟨natToChars ((roundHalfEven (q.num * 1000) (q.den : ℤ)).natAbs / 1000)⟩,
        frac3 ((roundHalfEven (q.num * 1000) (q.den : ℤ)).natAbs % 1000), ?_, rfl⟩
      simp only [pyFixed3]
      rw [if_pos h]
    · refine ⟨⟨natToChars ((roundHalfEven (q.num * 1000) (q.den : ℤ)).toNat / 1000)⟩,
        frac3 ((roundHalfEven (q.num * 1000) (q.den : ℤ)).toNat % 1000), ?_, rfl⟩
      simp only [pyFixed3]
      rw [if_neg h]
  · intro q
    by_cases h : roundHalfEven (q.num * 100) (q.den : ℤ) < 0
    · refine ⟨"-" ++ ⟨natToChars ((roundHalfEven (q.num * 100) (q.den : ℤ)).natAbs / 100)⟩,
        frac2 ((roundHalfEven (q.num * 100) (q.den : ℤ)).natAbs % 100), ?_, rfl⟩
      simp only [pyFixed2]
      rw [if_pos h]
    · refine ⟨⟨natToChars ((roundHalfEven (q.num * 100) (q.den : ℤ)).toNat / 100)⟩,
        frac2 ((roundHalfEven (q.num * 100) (q.den : ℤ)).toNat % 100), ?_, rfl⟩
      simp only [pyFixed2]
      rw [if_neg h]
  · intro p h
    unfold Integ.extract_pitcher_data
    rw [h]
  · intro b h
    unfold Integ.extract_batter_data
    rw [h]

/-- Witness for C8's amended theorem at concrete values. -/
theorem C8_format_amended_witness :
    (∃ a b : String, pyFixed3 (mkRat 1 4) = a ++ "." ++ b ∧ b.length = 3) ∧
    (Integ.extract_pitcher_data {}).era = "0.00" ∧
    (Integ.extract_batter_data {}).average = "0.000" :=
  ⟨C8_format_amended.1 (mkRat 1 4),
   C8_format_amended.2.2.2.1 {} rfl,
   C8_format_amended.2.2.2.2.1 {} rfl⟩

/-- C9 counterexample: when only the team-directory fetch fails, the
whole enrichment returns the empty mapping - no supplementary field at
all - even though the schedule fetch would have supplied the venue; the
identical environment with the directory succeeding populates venue,
managers and umpires.  Likewise, a raised exception in the live-feed
request of the succeeding environment (it reaches the function-wide
except) drops the schedule-derived venue along with everything else,
where the claim promises per-field tolerance. -/
theorem C9_enrichment_counterexample :
    JsonInteg.get_mlb_api_supplementary_data exEnrichEnvTeamsFail "TB" "CHC" = none ∧
    (JsonInteg.get_mlb_api_supplementary_data exEnrichEnvOk "TB" "CHC").map (·.venue)
        = some "Wrigley Field" ∧
    (JsonInteg.get_mlb_api_supplementary_data exEnrichEnvOk "TB" "CHC").map (·.managers)
        = some (some "Skip", some "Skip") ∧
    (JsonInteg.get_mlb_api_supplementary_data exEnrichEnvOk "TB" "CHC").map
        (fun s => s.umpires.map (·.name))
        = some ["Marvin Hudson", "Hunter Wendelstedt"] ∧
    JsonInteg.get_mlb_api_supplementary_data
        { exEnrichEnvOk with feed_fetch := none } "TB" "CHC" = none := by
  refine ⟨rfl, by decide, by decide, by decide, by decide⟩

/-- C9 amended: a failure of the team-directory fetch, of the team-id
resolution, of the schedule fetch or of the schedule game search
aborts the whole enrichment with the empty mapping, dropping every
supplementary field at once - and so does a raised exception in the
coaching-roster, live-feed or uniforms request, which propagates to
the function-wide except.  Only a non-200 status on those three later
requests is tolerated per-field: it skips just that block, leaving its
own fields at the sentinel defaults while the schedule-derived venue
and officials umpires stay populated. -/
theorem C9_enrichment_amended :
    (∀ (env : JsonInteg.EnrichEnv) (ac hc : String), env.teams_fetch = none →
      JsonInteg.get_mlb_api_supplementary_data env ac hc = none) ∧
    (∀ (env : JsonInteg.EnrichEnv) (ac hc : String), env.schedule_fetch = none →
      JsonInteg.get_mlb_api_supplementary_data env ac hc = none) ∧
    (∀ (env : JsonInteg.EnrichEnv) (ac hc : String) (ts : List ApiTeam),
      env.teams_fetch = some ts →
      env.coaches_fetch ((JsonInteg.findTeamIds ts ac hc).1.getD 0) = none →
      JsonInteg.get_mlb_api_supplementary_data env ac hc = none) ∧
    (∀ (env : JsonInteg.EnrichEnv) (ac hc : String) (ts : List ApiTeam) (sd : ScheduleDoc)
        (game : SchedGame),
      env.teams_fetch = some ts →
      env.schedule_fetch = some sd →
      JsonInteg.findGame sd (JsonInteg.findTeamIds ts ac hc).1
        (JsonInteg.findTeamIds ts ac hc).2 = some game →
      pyTruthyInt game.gamePk = true →
      env.feed_fetch = none →
      JsonInteg.get_mlb_api_supplementary_data env ac hc = none) ∧
    (∀ (env : JsonInteg.EnrichEnv) (ac hc : String) (ts : List ApiTeam) (sd : ScheduleDoc)
        (game : SchedGame),
      env.teams_fetch = some ts →
      env.schedule_fetch = some sd →
      JsonInteg.findGame sd (JsonInteg.findTeamIds ts ac hc).1
        (JsonInteg.findTeamIds ts ac hc).2 = some game →
      pyTruthyInt game.gamePk = true →
      env.uniforms_fetch = none →
      JsonInteg.get_mlb_api_supplementary_data env ac hc = none) ∧
    (∀ (ts : List ApiTeam) (sd : ScheduleDoc) (ac hc : String) (game : SchedGame),
      pyTruthyInt (JsonInteg.findTeamIds ts ac hc).1 = true →
      pyTruthyInt (JsonInteg.findTeamIds ts ac hc).2 = true →
      JsonInteg.findGame sd (JsonInteg.findTeamIds ts ac hc).1
        (JsonInteg.findTeamIds ts ac hc).2 = some game →
      game.weather = none →
      JsonInteg.get_mlb_api_supplementary_data
          { teams_fetch := some ts, schedule_fetch := some sd
          , coaches_fetch := fun _ => some none
          , feed_fetch := some none
          , uniforms_fetch := some none } ac hc
        = some
          { umpires := ((game.officials.getD []).filter
                (fun u => u.official_type == some "Umpire")).map (fun u =>
                  { name := pyJoinName u.firstName u.lastName
                  , position := u.position.getD "Unknown" })
          , managers := (none, none)
          , venue := game.venue_name.getD "Unknown Stadium" }) := by
  refine ⟨?_, ?_, ?_, ?_, ?_, ?_⟩
  · intro env ac hc h
    unfold JsonInteg.get_mlb_api_supplementary_data
    rw [h]
  · intro env ac hc h
    unfold JsonInteg.get_mlb_api_supplementary_data
    cases hts : env.teams_fetch with
    | none => rfl
    | some ts =>
      cases hcheck : (!(pyTruthyInt (JsonInteg.findTeamIds ts ac hc).1)
          || !(pyTruthyInt (JsonInteg.findTeamIds ts ac hc).2)) with
      | true => simp [hcheck]
      | false => simp [hcheck, h]
  · intro env ac hc ts hts hcoach
    unfold JsonInteg.get_mlb_api_supplementary_data
    rw [hts]
    cases hcheck : (!(pyTruthyInt (JsonInteg.findTeamIds ts ac hc).1)
        || !(pyTruthyInt (JsonInteg.findTeamIds ts ac hc).2)) with
    | true => simp [hcheck]
    | false =>
      cases hsched : env.schedule_fetch with
      | none => simp [hcheck, hsched]
      | some sd =>
        cases hfind : JsonInteg.findGame sd (JsonInteg.findTeamIds ts ac hc).1
            (JsonInteg.findTeamIds ts ac hc).2 with
        | none => simp [hcheck, hsched, hfind]
        | some game => simp [hcheck, hsched, hfind, hcoach]
  · intro env ac hc ts sd game hts hsched hfind hpk hfeed
    unfold JsonInteg.get_mlb_api_supplementary_data
    rw [hts]
    cases hcheck : (!(pyTruthyInt (JsonInteg.findTeamIds ts ac hc).1)
        || !(pyTruthyInt (JsonInteg.findTeamIds ts ac hc).2)) with
    | true => simp [hcheck]
    | false =>
      cases hc1 : env.coaches_fetch ((JsonInteg.findTeamIds ts ac hc).1.getD 0) with
      | none => simp [hcheck, hsched, hfind, hc1]
      | some r1 =>
        cases hc2 : env.coaches_fetch ((JsonInteg.findTeamIds ts ac hc).2.getD 0) with
        | none => simp [hcheck, hsched, hfind, hc1, hc2]
        | some r2 => simp [hcheck, hsched, hfind, hc1, hc2, hpk, hfeed]
  · intro env ac hc ts sd game hts hsched hfind hpk huni
    unfold JsonInteg.get_mlb_api_supplementary_data
    rw [hts]
    cases hcheck : (!(pyTruthyInt (JsonInteg.findTeamIds ts ac hc).1)
        || !(pyTruthyInt (JsonInteg.findTeamIds ts ac hc).2)) with
    | true => simp [hcheck]
    | false =>
      cases hc1 : env.coaches_fetch ((JsonInteg.findTeamIds ts ac hc).1.getD 0) with
      | none => simp [hcheck, hsched, hfind, hc1]
      | some r1 =>
        cases hc2 : env.coaches_fetch ((JsonInteg.findTeamIds ts ac hc).2.getD 0) with
        | none => simp [hcheck, hsched, hfind, hc1, hc2]
        | some r2 =>
          cases hf : env.feed_fetch with
          | none => simp [hcheck, hsched, hfind, hc1, hc2, hpk, hf]
          | some fr =>
            cases fr with
            | none => simp [hcheck, hsched, hfind, hc1, hc2, hpk, hf, huni]
            | some feed => simp [hcheck, hsched, hfind, hc1, hc2, hpk, hf, huni]
  · intro ts sd ac hc game h1 h2 hfind hweather
    unfold JsonInteg.get_mlb_api_supplementary_data
    simp only [h1, h2, Bool.not_true, Bool.or_self, Bool.false_eq_true, if_neg,
      not_false_eq_true, hfind, hweather, JsonInteg.managerFor, ite_self]

/-- Witness for C9's amended theorem: the schedule-failure case on an
otherwise rich environment, a live-feed request that raises after the
concrete game is located, and the non-200 tolerance at the concrete
teams/schedule pair. -/
theorem C9_enrichment_amended_witness :
    JsonInteg.get_mlb_api_supplementary_data
        { teams_fetch := some exTeams, schedule_fetch := none } "TB" "CHC" = none ∧
    JsonInteg.get_mlb_api_supplementary_data
        { teams_fetch := some exTeams, schedule_fetch := some exSchedDoc
        , coaches_fetch := fun _ => some none, feed_fetch := none } "TB" "CHC" = none ∧
    JsonInteg.get_mlb_api_supplementary_data
        { teams_fetch := some exTeams, schedule_fetch := some exSchedDoc
        , coaches_fetch := fun _ => some none
        , feed_fetch := some none
        , uniforms_fetch := some none } "TB" "CHC"
      = some
        { umpires := ((exSchedGame.officials.getD []).filter
              (fun u => u.official_type == some "Umpire")).map (fun u =>
                { name := pyJoinName u.firstName u.lastName
                , position := u.position.getD "Unknown" })
        , managers := (none, none)
        , venue := exSchedGame.venue_name.getD "Unknown Stadium" } :=
  ⟨C9_enrichment_amended.2.1 { teams_fetch := some exTeams, schedule_fetch := none }
      "TB" "CHC" rfl,
   C9_enrichment_amended.2.2.2.1
      { teams_fetch := some exTeams, schedule_fetch := some exSchedDoc
      , coaches_fetch := fun _ => some none, feed_fetch := none } "TB" "CHC"
      exTeams exSchedDoc exSchedGame rfl rfl (by decide) (by decide) rfl,
   C9_enrichment_amended.2.2.2.2.2 exTeams exSchedDoc "TB" "CHC" exSchedGame (by decide)
      (by decide) (by decide) rfl⟩

theorem dictGet_dictSet_self (d : List (String × PyVal)) (k : String) (v : PyVal) :
    dictGet (dictSet d k v) k = some v := by
  induction d with
  | nil => simp [dictSet, dictGet]
  | cons p rest ih =>
    by_cases h : p.1 = k
    · simp [dictSet, dictGet, h]
    · have hb : (p.1 == k) = false := by simp [h]
      simp only [dictSet, hb, Bool.false_eq_true, if_neg, not_false_eq_true]
      simp only [dictGet, List.find?_cons, hb]
      exact ih

theorem dictGet_dictSet_other {k k' : String} (h : k' ≠ k)
    (d : List (String × PyVal)) (v : PyVal) :
    dictGet (dictSet d k v) k' = dictGet d k' := by
  induction d with
  | nil =>
    have hb : (k == k') = false := by simp [Ne.symm h]
    simp [dictSet, dictGet, hb]
  | cons p rest ih =>
    by_cases hp : p.1 = k
    · have hb : (p.1 == k) = true := by simp [hp]
      have hb2 : (k == k') = false := by simp [Ne.symm h]
      have hb3 : (p.1 == k') = false := by simp [hp, Ne.symm h]
      simp [dictSet, dictGet, hb, hb2, hb3, List.find?_cons]
    · have hb : (p.1 == k) = false := by simp [hp]
      simp only [dictSet, hb, Bool.false_eq_true, if_neg, not_false_eq_true]
      by_cases hq : p.1 = k'
      · have hb4 : (p.1 == k') = true := by simp [hq]
        simp [dictGet, List.find?_cons, hb4]
      · have hb4 : (p.1 == k') = false := by simp [hq]
        simp only [dictGet, List.find?_cons, hb4]
        exact ih

/-- C10: customize_game_data assigns exactly the seven keys game_id,
date, away_team, home_team, venue, integration_status and note on a
shallow copy of the template; every other key of the template keeps its
binding, and the caller's mapping is never mutated (the embedding is a
pure function of the copied value, matching template_data.copy()). -/
theorem C10_customize_frame (template : List (String × PyVal))
    (ds ac hc : String) (n : ℕ) :
    dictGet (customize_game_data template ds ac hc n) "game_id"
        = some (.str (ds ++ "-" ++ ac ++ "-" ++ hc ++ "-" ++ ⟨natToChars n⟩)) ∧
    dictGet (customize_game_data template ds ac hc n) "date" = some (.str ds) ∧
    dictGet (customize_game_data template ds ac hc n) "away_team"
        = some (.dict [("name", .str (tableGet team_names ac (ac ++ " Team"))),
                       ("abbreviation", .str ac)]) ∧
    dictGet (customize_game_data template ds ac hc n) "home_team"
        = some (.dict [("name", .str (tableGet team_names hc (hc ++ " Team"))),
                       ("abbreviation", .str hc)]) ∧
    dictGet (customize_game_data template ds ac hc n) "venue"
        = some (.str (tableGet venue_mapping hc (hc ++ " Stadium"))) ∧
    dictGet (customize_game_data template ds ac hc n) "integration_status"
        = some (.str "customized_template_data") ∧
    dictGet (customize_game_data template ds ac hc n) "note"
        = some (.str ("Template data customized for " ++ ac ++ " @ " ++ hc ++ " on "
            ++ ds)) ∧
    ∀ k : String,
      k ∉ (["game_id", "date", "away_team", "home_team", "venue", "integration_status",
        "note"] : List String) →
      dictGet (customize_game_data template ds ac hc n) k = dictGet template k := by
  unfold customize_game_data
  refine ⟨?_, ?_, ?_, ?_, ?_, ?_, ?_, ?_⟩
  · rw [dictGet_dictSet_other (by decide), dictGet_dictSet_other (by decide),
      dictGet_dictSet_other (by decide), dictGet_dictSet_other (by decide),
      dictGet_dictSet_other (by decide), dictGet_dictSet_other (by decide),
      dictGet_dictSet_self]
  · rw [dictGet_dictSet_other (by decide), dictGet_dictSet_other (by decide),
      dictGet_dictSet_other (by decide), dictGet_dictSet_other (by decide),
      dictGet_dictSet_other (by decide), dictGet_dictSet_self]
  · rw [dictGet_dictSet_other (by decide), dictGet_dictSet_other (by decide),
      dictGet_dictSet_other (by decide), dictGet_dictSet_other (by decide),
      dictGet_dictSet_self]
  · rw [dictGet_dictSet_other (by decide), dictGet_dictSet_other (by decide),
      dictGet_dictSet_other (by decide), dictGet_dictSet_self]
  · rw [dictGet_dictSet_other (by decide), dictGet_dictSet_other (by decide),
      dictGet_dictSet_self]
  · rw [dictGet_dictSet_other (by decide), dictGet_dictSet_self]
  · rw [dictGet_dictSet_self]
  · intro k hk
    simp only [List.mem_cons, List.mem_singleton, not_or] at hk
    obtain ⟨h1, h2, h3, h4, h5, h6, h7, -⟩ := hk
    rw [dictGet_dictSet_other h7, dictGet_dictSet_other h6, dictGet_dictSet_other h5,
      dictGet_dictSet_other h4, dictGet_dictSet_other h3, dictGet_dictSet_other h2,
      dictGet_dictSet_other h1]

/-- Witness for C10 on a template carrying innings, status and events
keys, for the away code TB and home code CHC. -/
theorem C10_customize_frame_witness :
    dictGet (customize_game_data exTemplate "2025-09-14" "TB" "CHC" 1) "innings"
        = dictGet exTemplate "innings" ∧
    dictGet (customize_game_data exTemplate "2025-09-14" "TB" "CHC" 1) "status"
        = dictGet exTemplate "status" ∧
    dictGet (customize_game_data exTemplate "2025-09-14" "TB" "CHC" 1) "venue"
        = some (.str (tableGet venue_mapping "CHC" ("CHC" ++ " Stadium"))) :=
  ⟨(C10_customize_frame exTemplate "2025-09-14" "TB" "CHC" 1).2.2.2.2.2.2.2 "innings"
      (by decide),
   (C10_customize_frame exTemplate "2025-09-14" "TB" "CHC" 1).2.2.2.2.2.2.2 "status"
      (by decide),
   (C10_customize_frame exTemplate "2025-09-14" "TB" "CHC" 1).2.2.2.2.1⟩

end Baseball
